import Mathlib

/-!
Shallow embedding of the uasset-reader package parser (src/reader.rs,
src/parser.rs) and proofs about its string codec, summary decoder, section
readers and the memoizing parser orchestrator.

Bytes are modelled as natural numbers, Rust `String` values as lists of
Unicode scalar values, i32/i64 values as `Int`, u16/u32/u64 as `Nat`.
A reader method of the Rust code becomes a state transformer over the byte
stream returning `Except ParseError` results; the `none` value of the outer
`Option` models a Rust panic/abort (which returns no value at all).
-/

namespace Uasset

/-- A seekable byte source: the byte contents together with the cursor. -/
structure ByteStream where
  data : List Nat
  pos : Nat
deriving DecidableEq, Repr

/-- ParseError from src/parser.rs (payloads of the Io/InvalidUtf8 variants,
which carry opaque host error values, are dropped). -/
inductive ParseError where
  | IoError
  | InvalidTag
  | UnsupportedLegacyVersion (v : Int)
  | InvalidFileOffset (offset : Int) (file_size : Nat)
  | InvalidArraySize (n : Int)
  | InvalidCompressionFlags
  | CompressedChunksNotSupported
  | UnversionedAssetNotAllowed
  | AssetVersionTooOld (major minor : Nat)
  | InvalidUtf8
  | InvalidUtf16
deriving DecidableEq, Repr

/-- The effect of a reader method: stream threading, `Except` failure
(Rust `Result`), and `none` for a panic/abort. -/
def M (α : Type) : Type := ByteStream → Option (Except ParseError α × ByteStream)

/-- Monadic return. -/
def M.pure {α : Type} (a : α) : M α := fun s => some (Except.ok a, s)

/-- Monadic sequencing: a panic or an error stops the computation. -/
def M.bind {α β : Type} (x : M α) (f : α → M β) : M β := fun s =>
  match x s with
  | none => none
  | some (Except.error e, s') => some (Except.error e, s')
  | some (Except.ok a, s') => f a s'

instance : Monad M where
  pure := M.pure
  bind := M.bind

/-- Rust `return Err(e)`. -/
def M.throw {α : Type} (e : ParseError) : M α := fun s => some (Except.error e, s)

/-- A Rust panic or abort: no value is returned at all. -/
def M.panicked {α : Type} : M α := fun _ => none

/-- Lift a pure `Result` (e.g. the `check_*` helpers) into the reader monad. -/
def liftE {α : Type} (r : Except ParseError α) : M α := fun s => some (r, s)

/-- Rust early return `if b then continue else return Err(e)`. -/
def require (b : Prop) [Decidable b] (e : ParseError) : M Unit :=
  if b then M.pure () else M.throw e

/-- read_exact over the stream: `n` bytes from the cursor, or an I/O error on
a short read (the cursor is unchanged on failure). -/
def readBytes (n : Nat) : M (List Nat) := fun s =>
  if s.pos + n ≤ s.data.length then
    some (Except.ok ((s.data.drop s.pos).take n), { s with pos := s.pos + n })
  else
    some (Except.error ParseError.IoError, s)

/-- Little-endian value of a byte list. -/
def leVal : List Nat → Nat
  | [] => 0
  | b :: rest => b % 256 + 256 * leVal rest

/-- Reinterpret a `w`-bit unsigned value as the signed value of its bits. -/
def toSigned (w : Nat) (n : Nat) : Int :=
  if n < 2 ^ (w - 1) then (n : Int) else (n : Int) - 2 ^ w

/-- read_u16::<LittleEndian>. -/
def readU16 : M Nat := do
  let bs ← readBytes 2
  pure (leVal bs)

/-- read_u32::<LittleEndian>. -/
def readU32 : M Nat := do
  let bs ← readBytes 4
  pure (leVal bs)

/-- read_i32::<LittleEndian>. -/
def readI32 : M Int := do
  let bs ← readBytes 4
  pure (toSigned 32 (leVal bs))

/-- read_i64::<LittleEndian>. -/
def readI64 : M Int := do
  let bs ← readBytes 8
  pure (toSigned 64 (leVal bs))

/-- stream_position(). -/
def stream_position : M Nat := fun s => some (Except.ok s.pos, s)

/-- seek(SeekFrom::Start(n)). -/
def seekStart (n : Nat) : M Unit := fun s => some (Except.ok (), { s with pos := n })

/-- skip_bytes(n) for a non-negative count: seek(SeekFrom::Current(n)).
(The code only ever calls it with n = 4.) -/
def skip_bytes (n : Nat) : M Unit := fun s => some (Except.ok (), { s with pos := s.pos + n })

/-- Rust unary minus on i32: panics on i32::MIN (debug overflow check; in
release the wrapped value makes the subsequent allocation abort). -/
def i32Neg (x : Int) : M Int :=
  if x = -(2 ^ 31) then M.panicked else M.pure (-x)

/-- FName from src/unreal_types.rs: raw (index, number) pair. -/
structure FName where
  index : Int
  number : Int
deriving DecidableEq, Repr

/-- read_fname (src/parser.rs:229-234). -/
def read_fname : M FName := do
  let index ← readI32
  let number ← readI32
  pure { index := index, number := number }

/-- Whether a byte is a UTF-8 continuation byte (0x80..0xBF). -/
def isCont (b : Nat) : Bool := 0x80 ≤ b && b ≤ 0xBF

/-- Strict UTF-8 decoding to the list of Unicode scalar values, as done by
Rust String::from_utf8: overlong forms, surrogates and values above
0x10FFFF are rejected. -/
def utf8Decode : List Nat → Option (List Nat)
  | [] => some []
  | b :: rest =>
    if b ≤ 0x7F then (utf8Decode rest).map (fun cs => b :: cs)
    else if 0xC2 ≤ b ∧ b ≤ 0xDF then
      match rest with
      | c1 :: rest' =>
        if isCont c1 then
          (utf8Decode rest').map (fun cs => ((b - 0xC0) * 0x40 + (c1 - 0x80)) :: cs)
        else none
      | [] => none
    else if b = 0xE0 then
      match rest with
      | c1 :: c2 :: rest' =>
        if 0xA0 ≤ c1 ∧ c1 ≤ 0xBF ∧ isCont c2 then
          (utf8Decode rest').map (fun cs => ((c1 - 0x80) * 0x40 + (c2 - 0x80)) :: cs)
        else none
      | _ => none
    else if (0xE1 ≤ b ∧ b ≤ 0xEC) ∨ (0xEE ≤ b ∧ b ≤ 0xEF) then
      match rest with
      | c1 :: c2 :: rest' =>
        if isCont c1 ∧ isCont c2 then
          (utf8Decode rest').map
            (fun cs => ((b - 0xE0) * 0x1000 + (c1 - 0x80) * 0x40 + (c2 - 0x80)) :: cs)
        else none
      | _ => none
    else if b = 0xED then
      match rest with
      | c1 :: c2 :: rest' =>
        if 0x80 ≤ c1 ∧ c1 ≤ 0x9F ∧ isCont c2 then
          (utf8Decode rest').map
            (fun cs => (0xD000 + (c1 - 0x80) * 0x40 + (c2 - 0x80)) :: cs)
        else none
      | _ => none
    else if b = 0xF0 then
      match rest with
      | c1 :: c2 :: c3 :: rest' =>
        if 0x90 ≤ c1 ∧ c1 ≤ 0xBF ∧ isCont c2 ∧ isCont c3 then
          (utf8Decode rest').map
            (fun cs => ((c1 - 0x80) * 0x1000 + (c2 - 0x80) * 0x40 + (c3 - 0x80)) :: cs)
        else none
      | _ => none
    else if 0xF1 ≤ b ∧ b ≤ 0xF3 then
      match rest with
      | c1 :: c2 :: c3 :: rest' =>
        if isCont c1 ∧ isCont c2 ∧ isCont c3 then
          (utf8Decode rest').map
            (fun cs =>
              ((b - 0xF0) * 0x40000 + (c1 - 0x80) * 0x1000 +
                (c2 - 0x80) * 0x40 + (c3 - 0x80)) :: cs)
        else none
      | _ => none
    else if b = 0xF4 then
      match rest with
      | c1 :: c2 :: c3 :: rest' =>
        if 0x80 ≤ c1 ∧ c1 ≤ 0x8F ∧ isCont c2 ∧ isCont c3 then
          (utf8Decode rest').map
            (fun cs =>
              (0x100000 + (c1 - 0x80) * 0x1000 + (c2 - 0x80) * 0x40 + (c3 - 0x80)) :: cs)
        else none
      | _ => none
    else none

/-- chunks_exact(2) + u16::from_le_bytes: pair up bytes little-endian,
dropping a trailing odd byte. -/
def pairLE : List Nat → List Nat
  | b0 :: b1 :: rest => (b0 % 256 + 256 * (b1 % 256)) :: pairLE rest
  | _ => []

/-- UTF-16 decoding to Unicode scalar values, as done by Rust
String::from_utf16: unpaired surrogates are rejected. -/
def utf16Decode : List Nat → Option (List Nat)
  | [] => some []
  | u :: rest =>
    if u < 0xD800 ∨ 0xE000 ≤ u then (utf16Decode rest).map (fun cs => u :: cs)
    else if u ≤ 0xDBFF then
      match rest with
      | v :: rest' =>
        if 0xDC00 ≤ v ∧ v ≤ 0xDFFF then
          (utf16Decode rest').map
            (fun cs => (0x10000 + (u - 0xD800) * 0x400 + (v - 0xDC00)) :: cs)
        else none
      | [] => none
    else none

/-- read_fstring (src/parser.rs:236-271, identical to src/reader.rs:22-57).
The returned list of scalar values stands for the Rust String. -/
def read_fstring : M (List Nat) := do
  let size ← readI32
  if size = 0 then
    pure []
  else do
    let actual_size ← if size < 0 then i32Neg size else M.pure size
    let load_ucs2_char := size < 0
    let byte_size := if load_ucs2_char then actual_size.toNat * 2 else actual_size.toNat
    let buffer ← readBytes byte_size
    if load_ucs2_char then
      match utf16Decode (pairLE (buffer.take (byte_size - 2))) with
      | some cs => pure cs
      | none => M.throw ParseError.InvalidUtf16
    else
      match utf8Decode (buffer.take (byte_size - 1)) with
      | some cs => pure cs
      | none => M.throw ParseError.InvalidUtf8

/-- Loop body of read_tarray: read `n` elements in order. -/
def read_tarrayLoop {α : Type} (elem : M α) : Nat → M (List α)
  | 0 => M.pure []
  | n + 1 => do
    let a ← elem
    let rest ← read_tarrayLoop elem n
    pure (a :: rest)

/-- read_tarray (src/parser.rs:289-304, identical to src/reader.rs:64-79):
a declared i32 count that is negative or above max_elements is rejected
with InvalidArraySize. -/
def read_tarray {α : Type} (elem : M α) (max_elements : Nat) : M (List α) := do
  let n ← readI32
  if n < 0 ∨ n.toNat > max_elements then M.throw (ParseError.InvalidArraySize n)
  else read_tarrayLoop elem n.toNat

namespace EUnrealEngineObjectUE5Version

/-- EUnrealEngineObjectUE5Version discriminants (src/parser.rs:49-106):
InitialVersion = 1000 and each later milestone is one greater. -/
def InitialVersion : Int := 1000

/-- Milestone NamesReferencedFromExportData. -/
def NamesReferencedFromExportData : Int := 1001

/-- Milestone PayloadToc. -/
def PayloadToc : Int := 1002

/-- Milestone OptionalResources. -/
def OptionalResources : Int := 1003

/-- Milestone LargeWorldCoordinates. -/
def LargeWorldCoordinates : Int := 1004

/-- Milestone RemoveObjectExportPackageGuid. -/
def RemoveObjectExportPackageGuid : Int := 1005

/-- Milestone TrackObjectExportIsInherited. -/
def TrackObjectExportIsInherited : Int := 1006

/-- Milestone FSoftObjectPathRemoveAssetPathFNames. -/
def FSoftObjectPathRemoveAssetPathFNames : Int := 1007

/-- Milestone AddSoftObjectPathList. -/
def AddSoftObjectPathList : Int := 1008

/-- Milestone DataResources. -/
def DataResources : Int := 1009

/-- Milestone ScriptSerializationOffset. -/
def ScriptSerializationOffset : Int := 1010

/-- Milestone PropertyTagExtensionAndOverridableSerialization. -/
def PropertyTagExtensionAndOverridableSerialization : Int := 1011

/-- Milestone PropertyTagCompleteTypeName. -/
def PropertyTagCompleteTypeName : Int := 1012

/-- Milestone AssetRegistryPackageBuildDependencies. -/
def AssetRegistryPackageBuildDependencies : Int := 1013

/-- Milestone MetadataSerializationOffset. -/
def MetadataSerializationOffset : Int := 1014

/-- Milestone VerseCells. -/
def VerseCells : Int := 1015

/-- Milestone PackageSavedHash. -/
def PackageSavedHash : Int := 1016

/-- Milestone OsSubObjectShadowSerialization. -/
def OsSubObjectShadowSerialization : Int := 1017

end EUnrealEngineObjectUE5Version

/-- UassetSummary (src/parser.rs:108-161); strings are scalar-value lists,
byte arrays are byte lists. -/
structure UassetSummary where
  tag : Nat
  legacy_file_version : Int
  legacy_ue3_version : Int
  file_version_ue4 : Int
  file_version_ue5 : Int
  file_version_licensee_ue4 : Nat
  saved_hash : Option (List Nat)
  total_header_size : Int
  custom_versions : List (List Nat)
  package_name : List Nat
  package_flags : Nat
  name_count : Int
  name_offset : Int
  soft_object_paths_count : Option Int
  soft_object_paths_offset : Option Int
  localization_id : List Nat
  gatherable_text_data_count : Int
  gatherable_text_data_offset : Int
  export_count : Int
  export_offset : Int
  import_count : Int
  import_offset : Int
  cell_export_count : Option Int
  cell_export_offset : Option Int
  cell_import_count : Option Int
  cell_import_offset : Option Int
  metadata_offset : Option Int
  depends_offset : Int
  soft_package_references_count : Int
  soft_package_references_offset : Int
  searchable_names_offset : Int
  thumbnail_table_offset : Int
  guid : Option (List Nat)
  persistent_guid : List Nat
  generations : List (List Nat)
  saved_by_engine_version_major : Nat
  saved_by_engine_version_minor : Nat
  saved_by_engine_version_patch : Nat
  saved_by_engine_version_changelist : Nat
  saved_by_engine_version_name : List Nat
  compatible_engine_version_major : Nat
  compatible_engine_version_minor : Nat
  compatible_engine_version_patch : Nat
  compatible_engine_version_changelist : Nat
  compatible_engine_version_name : List Nat
  compression_flags : Nat
  compressed_chunks : List (List Nat)
  package_source : Nat
  additional_packages_to_cook : List (List Nat)
  asset_registry_data_offset : Int
  bulk_data_start_offset : Int

/-- check_file_offset (src/parser.rs:312-320): an offset is valid iff it
lies in [0, package_file_size]. -/
def check_file_offset (package_file_size : Nat) (offset : Int) : Except ParseError Unit :=
  if offset < 0 ∨ offset > (package_file_size : Int) then
    Except.error (ParseError.InvalidFileOffset offset package_file_size)
  else Except.ok ()

/-- check_compression_flags (src/parser.rs:322-332): on u32,
!(0x0F | 0xF0) = 0xFFFFFF00; any such bit set is rejected. -/
def check_compression_flags (flags : Nat) : Except ParseError Unit :=
  if Nat.land flags 0xFFFFFF00 ≠ 0 then Except.error ParseError.InvalidCompressionFlags
  else Except.ok ()

/-- check_asset_version (src/parser.rs:334-346). -/
def check_asset_version (allow_unversioned : Bool) (major minor : Nat) :
    Except ParseError Unit :=
  if major = 0 then
    if allow_unversioned = false then Except.error ParseError.UnversionedAssetNotAllowed
    else Except.ok ()
  else if major < 4 ∨ (major = 4 ∧ minor < 27) then
    Except.error (ParseError.AssetVersionTooOld major minor)
  else Except.ok ()

/-- Rust `if cond { read ... } else { default }` around a version-gated
field read: run the action when the condition holds, otherwise keep the
default value. -/
def version_gated {α : Type} (cond : Prop) [Decidable cond] (action : M α) (dflt : α) :
    M α :=
  if cond then action else M.pure dflt

/-- Rust cast `i32 as u64`: sign extension. -/
def i32AsU64 (x : Int) : Nat := (x % (2 ^ 64 : Int)).toNat

/-- The generation-list sanity bound computed at src/parser.rs:459-461:
(total_header_size as u64).saturating_sub(current_pos + 1) / 20.
Nat subtraction is the saturating subtraction. -/
def max_generations (total_header_size : Int) (current_pos : Nat) : Nat :=
  (i32AsU64 total_header_size - (current_pos + 1)) / 20

/-- The compressed-chunk sanity bound computed at src/parser.rs:493-495. -/
def max_chunks (total_header_size : Int) (current_pos : Nat) : Nat :=
  (i32AsU64 total_header_size - (current_pos + 1)) / 16

/-- The remaining-header bound computed at src/parser.rs:512-513, used as
the max element count for additional_packages_to_cook. -/
def remaining_header_bytes (total_header_size : Int) (current_pos : Nat) : Nat :=
  i32AsU64 total_header_size - (current_pos + 1)

/-- read_uasset_summary (src/parser.rs:348-525), field for field in source
order; the record assembled at the end equals the record the Rust code
builds by successive mutation of a default value. The warning printed for
a too-new UE5 version (src/parser.rs:376-383) has no effect on the result
and is not modelled. -/
def read_uasset_summary (package_file_size : Nat) (allow_unversioned : Bool) :
    M UassetSummary := do
  seekStart 0
  let tag ← readU32
  require (tag = 0x9e2a83c1) ParseError.InvalidTag
  let legacy_file_version ← readI32
  require (legacy_file_version = -7 ∨ legacy_file_version = -8 ∨ legacy_file_version = -9)
    (ParseError.UnsupportedLegacyVersion legacy_file_version)
  let legacy_ue3_version ← readI32
  let file_version_ue4 ← readI32
  let file_version_ue5 ← version_gated (legacy_file_version ≤ -8) readI32 0
  let file_version_licensee_ue4 ← readU32
  let savedHashAndSize ←
    version_gated (file_version_ue5 ≥ EUnrealEngineObjectUE5Version.PackageSavedHash)
      (do
        let hash ← readBytes 20
        let ths ← readI32
        pure (some hash, ths))
      ((none : Option (List Nat)), (0 : Int))
  let custom_versions ← read_tarray (readBytes 20) 100000
  let total_header_size ←
    version_gated (file_version_ue5 < EUnrealEngineObjectUE5Version.PackageSavedHash)
      readI32 savedHashAndSize.2
  let package_name ← read_fstring
  let package_flags ← readU32
  let name_count ← readI32
  let name_offset ← readI32
  let softPaths ←
    version_gated (file_version_ue5 ≥ EUnrealEngineObjectUE5Version.AddSoftObjectPathList)
      (do
        let c ← readI32
        let o ← readI32
        pure (some c, some o))
      ((none : Option Int), (none : Option Int))
  let localization_id ← read_fstring
  let gatherable_text_data_count ← readI32
  let gatherable_text_data_offset ← readI32
  let export_count ← readI32
  let export_offset ← readI32
  let import_count ← readI32
  let import_offset ← readI32
  let cells ←
    version_gated (file_version_ue5 ≥ EUnrealEngineObjectUE5Version.VerseCells)
      (do
        let ec ← readI32
        let eo ← readI32
        let ic ← readI32
        let io2 ← readI32
        pure (some ec, some eo, some ic, some io2))
      ((none : Option Int), (none : Option Int), (none : Option Int), (none : Option Int))
  let metadata_offset ←
    version_gated (file_version_ue5 ≥ EUnrealEngineObjectUE5Version.MetadataSerializationOffset)
      (do
        let m ← readI32
        pure (some m))
      (none : Option Int)
  let depends_offset ← readI32
  let soft_package_references_count ← readI32
  let soft_package_references_offset ← readI32
  let searchable_names_offset ← readI32
  let thumbnail_table_offset ← readI32
  let guid ←
    version_gated (file_version_ue5 < EUnrealEngineObjectUE5Version.PackageSavedHash)
      (do
        let g ← readBytes 16
        pure (some g))
      (none : Option (List Nat))
  let persistent_guid ← readBytes 16
  liftE (check_file_offset package_file_size gatherable_text_data_offset)
  liftE (check_file_offset package_file_size export_offset)
  liftE (check_file_offset package_file_size import_offset)
  liftE (check_file_offset package_file_size depends_offset)
  liftE (check_file_offset package_file_size soft_package_references_offset)
  liftE (check_file_offset package_file_size searchable_names_offset)
  liftE (check_file_offset package_file_size thumbnail_table_offset)
  let current_pos ← stream_position
  let generations ← read_tarray (readBytes 8) (max_generations total_header_size current_pos)
  let saved_by_engine_version_major ← readU16
  let saved_by_engine_version_minor ← readU16
  let saved_by_engine_version_patch ← readU16
  let saved_by_engine_version_changelist ← readU32
  let saved_by_engine_version_name ← read_fstring
  let compatible_engine_version_major ← readU16
  let compatible_engine_version_minor ← readU16
  let compatible_engine_version_patch ← readU16
  let compatible_engine_version_changelist ← readU32
  let compatible_engine_version_name ← read_fstring
  liftE (check_asset_version allow_unversioned
    saved_by_engine_version_major saved_by_engine_version_minor)
  let compression_flags ← readU32
  liftE (check_compression_flags compression_flags)
  let pos2 ← stream_position
  let compressed_chunks ← read_tarray (readBytes 16) (max_chunks total_header_size pos2)
  require (compressed_chunks = []) ParseError.CompressedChunksNotSupported
  let package_source ← readU32
  let pos3 ← stream_position
  let additional_packages_to_cook ←
    read_tarray read_fstring (remaining_header_bytes total_header_size pos3)
  let asset_registry_data_offset ← readI32
  let bulk_data_start_offset ← readI64
  liftE (check_file_offset package_file_size asset_registry_data_offset)
  liftE (check_file_offset package_file_size bulk_data_start_offset)
  pure {
    tag := tag
    legacy_file_version := legacy_file_version
    legacy_ue3_version := legacy_ue3_version
    file_version_ue4 := file_version_ue4
    file_version_ue5 := file_version_ue5
    file_version_licensee_ue4 := file_version_licensee_ue4
    saved_hash := savedHashAndSize.1
    total_header_size := total_header_size
    custom_versions := custom_versions
    package_name := package_name
    package_flags := package_flags
    name_count := name_count
    name_offset := name_offset
    soft_object_paths_count := softPaths.1
    soft_object_paths_offset := softPaths.2
    localization_id := localization_id
    gatherable_text_data_count := gatherable_text_data_count
    gatherable_text_data_offset := gatherable_text_data_offset
    export_count := export_count
    export_offset := export_offset
    import_count := import_count
    import_offset := import_offset
    cell_export_count := cells.1
    cell_export_offset := cells.2.1
    cell_import_count := cells.2.2.1
    cell_import_offset := cells.2.2.2
    metadata_offset := metadata_offset
    depends_offset := depends_offset
    soft_package_references_count := soft_package_references_count
    soft_package_references_offset := soft_package_references_offset
    searchable_names_offset := searchable_names_offset
    thumbnail_table_offset := thumbnail_table_offset
    guid := guid
    persistent_guid := persistent_guid
    generations := generations
    saved_by_engine_version_major := saved_by_engine_version_major
    saved_by_engine_version_minor := saved_by_engine_version_minor
    saved_by_engine_version_patch := saved_by_engine_version_patch
    saved_by_engine_version_changelist := saved_by_engine_version_changelist
    saved_by_engine_version_name := saved_by_engine_version_name
    compatible_engine_version_major := compatible_engine_version_major
    compatible_engine_version_minor := compatible_engine_version_minor
    compatible_engine_version_patch := compatible_engine_version_patch
    compatible_engine_version_changelist := compatible_engine_version_changelist
    compatible_engine_version_name := compatible_engine_version_name
    compression_flags := compression_flags
    compressed_chunks := compressed_chunks
    package_source := package_source
    additional_packages_to_cook := additional_packages_to_cook
    asset_registry_data_offset := asset_registry_data_offset
    bulk_data_start_offset := bulk_data_start_offset
  }

/-- Loop body of read_names (src/parser.rs:541-545): an FString followed by
4 discarded precomputed-hash bytes, name_count times. -/
def read_namesLoop : Nat → M (List (List Nat))
  | 0 => M.pure []
  | k + 1 => do
    let name ← read_fstring
    skip_bytes 4
    let rest ← read_namesLoop k
    pure (name :: rest)

/-- read_names (src/parser.rs:527-548). -/
def read_names (summary : UassetSummary) (package_file_size : Nat) : M (List (List Nat)) := do
  if summary.name_count ≤ 0 then pure []
  else do
    let offset := summary.name_offset
    if offset ≤ 0 ∨ offset > (package_file_size : Int) then pure []
    else do
      seekStart offset.toNat
      read_namesLoop summary.name_count.toNat

/-- AssetRegistryData (src/parser.rs:163-168); the HashMap of tags is
modelled as an association list with last-write-wins insertion. -/
structure AssetRegistryData where
  object_path : List Nat
  object_class_name : List Nat
  tags : List (List Nat × List Nat)
deriving DecidableEq, Repr

/-- HashMap::insert: replace any existing binding of the key. -/
def insertTag (tags : List (List Nat × List Nat)) (key val : List Nat) :
    List (List Nat × List Nat) :=
  tags.filter (fun p => p.1 ≠ key) ++ [(key, val)]

/-- Inner tag loop of read_asset_registry_data (src/parser.rs:577-587).
Rust builds the tuple (self.read_fstring(), self.read_fstring()) — both
calls run — and matches on it: (Ok, Ok) inserts the pair and continues;
any error stops, keeping the current partial asset. The Bool result is
false exactly when the loop stopped on a failed pair. -/
def readTagsLoop : Nat → AssetRegistryData → M (AssetRegistryData × Bool)
  | 0, asset => M.pure (asset, true)
  | j + 1, asset => fun s =>
    match read_fstring s with
    | none => none
    | some (Except.ok key, s1) =>
      match read_fstring s1 with
      | none => none
      | some (Except.ok val, s2) =>
        readTagsLoop j { asset with tags := insertTag asset.tags key val } s2
      | some (Except.error _, s2) => some (Except.ok (asset, false), s2)
    | some (Except.error _, s1) =>
      match read_fstring s1 with
      | none => none
      | some (_, s2) => some (Except.ok (asset, false), s2)

/-- Outer asset loop of read_asset_registry_data (src/parser.rs:570-590):
on a failed tag pair, the partial asset is pushed and the assets decoded
so far are returned as a successful result. -/
def readAssetsLoop : Nat → M (List AssetRegistryData)
  | 0 => M.pure []
  | k + 1 => do
    let object_path ← read_fstring
    let object_class_name ← read_fstring
    let n_tags ← readI32
    let r ← readTagsLoop n_tags.toNat
      { object_path := object_path, object_class_name := object_class_name, tags := [] }
    if r.2 then do
      let rest ← readAssetsLoop k
      pure (r.1 :: rest)
    else pure [r.1]

/-- read_asset_registry_data (src/parser.rs:550-593). -/
def read_asset_registry_data (summary : UassetSummary) (package_file_size : Nat) :
    M (List AssetRegistryData) := do
  let offset := summary.asset_registry_data_offset
  if offset ≤ 0 ∨ offset > (package_file_size : Int) then pure []
  else do
    seekStart offset.toNat
    let dependency_data_offset ← readI64
    liftE (check_file_offset package_file_size dependency_data_offset)
    let n_assets ← readI32
    require (¬ n_assets < 0) (ParseError.InvalidArraySize n_assets)
    readAssetsLoop n_assets.toNat

/-- AssetData (src/parser.rs:170-175). -/
structure AssetData where
  asset_class_name : List Nat
  object_path_without_package_name : List Nat
  file_offset : Int
deriving DecidableEq, Repr

/-- Vec::with_capacity(n) for the AssetData element type: a request of at
least 2^63 elements exceeds the isize::MAX byte bound for every element
size of at least one byte and panics (capacity overflow); smaller requests
are modelled as succeeding. -/
def vec_with_capacity_assetdata (n : Nat) : M Unit :=
  if 2 ^ 63 ≤ n then M.panicked else M.pure ()

/-- Triple loop of read_asset_data_from_thumbnail_cache
(src/parser.rs:608-616). -/
def readThumbnailLoop : Nat → M (List AssetData)
  | 0 => M.pure []
  | k + 1 => do
    let asset_class_name ← read_fstring
    let object_path_without_package_name ← read_fstring
    let file_offset ← readI32
    let rest ← readThumbnailLoop k
    pure ({ asset_class_name := asset_class_name
            object_path_without_package_name := object_path_without_package_name
            file_offset := file_offset } :: rest)

/-- read_asset_data_from_thumbnail_cache (src/parser.rs:595-619): the
object count is read as i32 and used unvalidated, cast to usize for
Vec::with_capacity; the loop `for _ in 0..object_count` runs
object_count times when positive and zero times otherwise. -/
def read_asset_data_from_thumbnail_cache (summary : UassetSummary)
    (package_file_size : Nat) : M (List AssetData) := do
  let offset := summary.thumbnail_table_offset
  if offset ≤ 0 ∨ offset > (package_file_size : Int) then pure []
  else do
    seekStart offset.toNat
    let object_count ← readI32
    vec_with_capacity_assetdata (i32AsU64 object_count)
    readThumbnailLoop object_count.toNat

/-- ExportEntry (src/export_table.rs). -/
structure ExportEntry where
  class_index : Int
  super_index : Int
  template_index : Int
  outer_index : Int
  object_name : FName
  object_flags : Int
  serial_size : Int
  serial_offset : Int
  force_export : Bool
  not_for_client : Bool
  not_for_server : Bool
  is_inherited_instance : Bool
  package_flags : Nat
  not_always_loaded_for_editor_game : Bool
  is_asset : Bool
  generate_public_hash : Bool
  first_export_dependency : Int
  serialization_before_serialization_dependencies : Int
  create_before_serialization_dependencies : Int
  serialization_before_create_dependencies : Int
  create_before_create_dependencies : Int
  script_serialization_start_offset : Int
  script_serialization_end_offset : Int

/-- read_u32 != 0, the boolean-flag read used by read_export. -/
def readBool32 : M Bool := do
  let v ← readU32
  pure (v != 0)

/-- One iteration of the read_export entry loop (src/parser.rs:632-708),
fields in source order with the version-gated reads inline. -/
def read_export_entry (file_version_ue5 : Int) : M ExportEntry := do
  let class_index ← readI32
  let super_index ← readI32
  let template_index ← readI32
  let outer_index ← readI32
  let object_name ← read_fname
  let object_flags ← readI32
  let serial_size ← readI64
  let serial_offset ← readI64
  let force_export ← readBool32
  let not_for_client ← readBool32
  let not_for_server ← readBool32
  version_gated (file_version_ue5 < EUnrealEngineObjectUE5Version.RemoveObjectExportPackageGuid)
    (do
      let _ ← readBytes 16
      pure ())
    ()
  let is_inherited_instance ←
    version_gated (file_version_ue5 > EUnrealEngineObjectUE5Version.TrackObjectExportIsInherited)
      readBool32 false
  let package_flags ← readU32
  let not_always_loaded_for_editor_game ← readBool32
  let is_asset ← readBool32
  let generate_public_hash ←
    version_gated (file_version_ue5 ≥ EUnrealEngineObjectUE5Version.OptionalResources)
      readBool32 false
  let first_export_dependency ← readI32
  let serialization_before_serialization_dependencies ← readI32
  let create_before_serialization_dependencies ← readI32
  let serialization_before_create_dependencies ← readI32
  let create_before_create_dependencies ← readI32
  let script_serialization_start_offset ← readI64
  let script_serialization_end_offset ← readI64
  pure {
    class_index := class_index
    super_index := super_index
    template_index := template_index
    outer_index := outer_index
    object_name := object_name
    object_flags := object_flags
    serial_size := serial_size
    serial_offset := serial_offset
    force_export := force_export
    not_for_client := not_for_client
    not_for_server := not_for_server
    is_inherited_instance := is_inherited_instance
    package_flags := package_flags
    not_always_loaded_for_editor_game := not_always_loaded_for_editor_game
    is_asset := is_asset
    generate_public_hash := generate_public_hash
    first_export_dependency := first_export_dependency
    serialization_before_serialization_dependencies :=
      serialization_before_serialization_dependencies
    create_before_serialization_dependencies := create_before_serialization_dependencies
    serialization_before_create_dependencies := serialization_before_create_dependencies
    create_before_create_dependencies := create_before_create_dependencies
    script_serialization_start_offset := script_serialization_start_offset
    script_serialization_end_offset := script_serialization_end_offset
  }

/-- Entry loop of read_export. -/
def read_exportLoop (file_version_ue5 : Int) : Nat → M (List ExportEntry)
  | 0 => M.pure []
  | k + 1 => do
    let e ← read_export_entry file_version_ue5
    let rest ← read_exportLoop file_version_ue5 k
    pure (e :: rest)

/-- read_export (src/parser.rs:621-711). -/
def read_export (summary : UassetSummary) (package_file_size : Nat) :
    M (List ExportEntry) := do
  let offset := summary.export_offset
  let count := summary.export_count
  if offset ≤ 0 ∨ offset > (package_file_size : Int) ∨ count ≤ 0 then pure []
  else do
    seekStart offset.toNat
    read_exportLoop summary.file_version_ue5 count.toNat

/-- UassetParser (src/parser.rs:177-186): the byte source, the file size,
the eagerly decoded summary and the three memoized section results. -/
structure UassetParser where
  reader : ByteStream
  package_file_size : Nat
  allow_unversioned : Bool
  summary : UassetSummary
  names : Option (List (List Nat))
  asset_registry_data : Option (List AssetRegistryData)
  thumbnail_cache : Option (List AssetData)

/-- UassetParser::new (src/parser.rs:189-206): the file size is obtained by
seeking to the end, the stream is rewound, and the summary is decoded
eagerly; construction fails iff the summary decode fails. -/
def UassetParser.new (reader : ByteStream) (allow_unversioned : Bool) :
    Option (Except ParseError UassetParser) :=
  let package_file_size := reader.data.length
  match read_uasset_summary package_file_size allow_unversioned { reader with pos := 0 } with
  | none => none
  | some (Except.error e, _) => some (Except.error e)
  | some (Except.ok summary, s') =>
    some (Except.ok {
      reader := s'
      package_file_size := package_file_size
      allow_unversioned := allow_unversioned
      summary := summary
      names := none
      asset_registry_data := none
      thumbnail_cache := none })

/-- get_names (src/parser.rs:208-213): decode and cache on first success;
on failure the error propagates and the cache field stays unloaded. -/
def get_names (p : UassetParser) :
    Option (Except ParseError (List (List Nat)) × UassetParser) :=
  match p.names with
  | some v => some (Except.ok v, p)
  | none =>
    match read_names p.summary p.package_file_size p.reader with
    | none => none
    | some (Except.error e, s') => some (Except.error e, { p with reader := s' })
    | some (Except.ok v, s') =>
      some (Except.ok v, { p with reader := s', names := some v })

/-- get_asset_registry_data (src/parser.rs:215-220). -/
def get_asset_registry_data (p : UassetParser) :
    Option (Except ParseError (List AssetRegistryData) × UassetParser) :=
  match p.asset_registry_data with
  | some v => some (Except.ok v, p)
  | none =>
    match read_asset_registry_data p.summary p.package_file_size p.reader with
    | none => none
    | some (Except.error e, s') => some (Except.error e, { p with reader := s' })
    | some (Except.ok v, s') =>
      some (Except.ok v, { p with reader := s', asset_registry_data := some v })

/-- get_thumbnail_cache (src/parser.rs:222-227). -/
def get_thumbnail_cache (p : UassetParser) :
    Option (Except ParseError (List AssetData) × UassetParser) :=
  match p.thumbnail_cache with
  | some v => some (Except.ok v, p)
  | none =>
    match read_asset_data_from_thumbnail_cache p.summary p.package_file_size p.reader with
    | none => none
    | some (Except.error e, s') => some (Except.error e, { p with reader := s' })
    | some (Except.ok v, s') =>
      some (Except.ok v, { p with reader := s', thumbnail_cache := some v })

/-! Proof toolkit: forward evaluation and inversion lemmas for the monad
and the primitive reads. -/

/-- Forward evaluation of one bind, used to step through a decoder run on
concrete bytes. -/
theorem step {α β : Type} (x : M α) {f : α → M β} {s : ByteStream} (a : α)
    (s' : ByteStream) (h : x s = some (Except.ok a, s')) : (x >>= f) s = f a s' := by
  show M.bind x f s = f a s'
  unfold M.bind
  rw [h]

/-- Forward propagation of an error through a bind. -/
theorem step_err {α β : Type} (x : M α) {f : α → M β} {s : ByteStream} (e : ParseError)
    (s' : ByteStream) (h : x s = some (Except.error e, s')) :
    (x >>= f) s = some (Except.error e, s') := by
  show M.bind x f s = some (Except.error e, s')
  unfold M.bind
  rw [h]

/-- Inversion of a successful bind. -/
theorem bind_ok {α β : Type} {x : M α} {f : α → M β} {s s'' : ByteStream} {b : β}
    (h : (x >>= f) s = some (Except.ok b, s'')) :
    ∃ a s', x s = some (Except.ok a, s') ∧ f a s' = some (Except.ok b, s'') := by
  have h' : M.bind x f s = some (Except.ok b, s'') := h
  unfold M.bind at h'
  match hx : x s with
  | none => rw [hx] at h'; cases h'
  | some (Except.error e, s₁) => rw [hx] at h'; cases h'
  | some (Except.ok a, s₁) =>
    rw [hx] at h'
    exact ⟨a, s₁, rfl, h'⟩

/-- Inversion of pure. -/
theorem pure_ok {α : Type} {a b : α} {s s' : ByteStream}
    (h : (pure a : M α) s = some (Except.ok b, s')) : b = a ∧ s' = s := by
  have h' : M.pure a s = some (Except.ok b, s') := h
  unfold M.pure at h'
  cases h'
  exact ⟨rfl, rfl⟩

/-- Inversion of M.pure. -/
theorem mpure_ok {α : Type} {a b : α} {s s' : ByteStream}
    (h : M.pure a s = some (Except.ok b, s')) : b = a ∧ s' = s := pure_ok h

/-- Inversion of require: success means the condition held and nothing moved. -/
theorem require_ok {c : Prop} [Decidable c] {e : ParseError} {u : Unit} {s s' : ByteStream}
    (h : require c e s = some (Except.ok u, s')) : c ∧ s' = s := by
  unfold require at h
  by_cases hc : c
  · rw [if_pos hc] at h
    exact ⟨hc, (mpure_ok h).2⟩
  · rw [if_neg hc] at h
    cases h

/-- Inversion of liftE. -/
theorem liftE_ok {α : Type} {r : Except ParseError α} {a : α} {s s' : ByteStream}
    (h : liftE r s = some (Except.ok a, s')) : r = Except.ok a ∧ s' = s := by
  unfold liftE at h
  cases h
  exact ⟨rfl, rfl⟩

/-- Inversion of seekStart. -/
theorem seekStart_ok {n : Nat} {u : Unit} {s s' : ByteStream}
    (h : seekStart n s = some (Except.ok u, s')) : s' = { s with pos := n } := by
  unfold seekStart at h
  cases h
  rfl

/-- Inversion of stream_position. -/
theorem stream_position_ok {a : Nat} {s s' : ByteStream}
    (h : stream_position s = some (Except.ok a, s')) : a = s.pos ∧ s' = s := by
  unfold stream_position at h
  cases h
  exact ⟨rfl, rfl⟩

/-- Inversion of readBytes: success yields exactly n bytes and advances the
cursor by n. -/
theorem readBytes_ok {n : Nat} {bs : List Nat} {s s' : ByteStream}
    (h : readBytes n s = some (Except.ok bs, s')) :
    s' = { s with pos := s.pos + n } ∧ bs = (s.data.drop s.pos).take n ∧
      s.pos + n ≤ s.data.length := by
  unfold readBytes at h
  by_cases hle : s.pos + n ≤ s.data.length
  · rw [if_pos hle] at h
    cases h
    exact ⟨rfl, rfl, hle⟩
  · rw [if_neg hle] at h
    cases h

/-- Success of readU32 advances the cursor by 4. -/
theorem readU32_pos {v : Nat} {s s' : ByteStream}
    (h : readU32 s = some (Except.ok v, s')) : s'.pos = s.pos + 4 := by
  obtain ⟨bs, s₁, h₁, h₂⟩ := bind_ok h
  obtain ⟨-, rfl⟩ := pure_ok h₂
  rw [(readBytes_ok h₁).1]

/-- Success of readU16 advances the cursor by 2. -/
theorem readU16_pos {v : Nat} {s s' : ByteStream}
    (h : readU16 s = some (Except.ok v, s')) : s'.pos = s.pos + 2 := by
  obtain ⟨bs, s₁, h₁, h₂⟩ := bind_ok h
  obtain ⟨-, rfl⟩ := pure_ok h₂
  rw [(readBytes_ok h₁).1]

/-- Success of readI32 advances the cursor by 4. -/
theorem readI32_pos {v : Int} {s s' : ByteStream}
    (h : readI32 s = some (Except.ok v, s')) : s'.pos = s.pos + 4 := by
  obtain ⟨bs, s₁, h₁, h₂⟩ := bind_ok h
  obtain ⟨-, rfl⟩ := pure_ok h₂
  rw [(readBytes_ok h₁).1]

/-- Success of readI64 advances the cursor by 8. -/
theorem readI64_pos {v : Int} {s s' : ByteStream}
    (h : readI64 s = some (Except.ok v, s')) : s'.pos = s.pos + 8 := by
  obtain ⟨bs, s₁, h₁, h₂⟩ := bind_ok h
  obtain ⟨-, rfl⟩ := pure_ok h₂
  rw [(readBytes_ok h₁).1]

/-- Success of read_fname advances the cursor by 8. -/
theorem read_fname_pos {v : FName} {s s' : ByteStream}
    (h : read_fname s = some (Except.ok v, s')) : s'.pos = s.pos + 8 := by
  obtain ⟨i, s₁, h₁, h₂⟩ := bind_ok h
  obtain ⟨n, s₂, h₃, h₄⟩ := bind_ok h₂
  obtain ⟨-, rfl⟩ := pure_ok h₄
  have hb := readI32_pos h₃
  have hc := readI32_pos h₁
  omega

/-- Success of readBool32 advances the cursor by 4. -/
theorem readBool32_pos {v : Bool} {s s' : ByteStream}
    (h : readBool32 s = some (Except.ok v, s')) : s'.pos = s.pos + 4 := by
  obtain ⟨w, s₁, h₁, h₂⟩ := bind_ok h
  obtain ⟨-, rfl⟩ := pure_ok h₂
  exact readU32_pos h₁

/-- A version_gated read with a true condition runs the action. -/
theorem version_gated_pos {α : Type} {c : Prop} [Decidable c] {act : M α} {d : α}
    (hc : c) : version_gated c act d = act := by
  unfold version_gated
  rw [if_pos hc]

/-- A version_gated read with a false condition returns the default. -/
theorem version_gated_neg {α : Type} {c : Prop} [Decidable c] {act : M α} {d : α}
    (hc : ¬c) : version_gated c act d = M.pure d := by
  unfold version_gated
  rw [if_neg hc]

/-- check_file_offset succeeds exactly on offsets in [0, file size]. -/
theorem check_file_offset_ok {fs : Nat} {off : Int} {u : Unit}
    (h : check_file_offset fs off = Except.ok u) : 0 ≤ off ∧ off ≤ (fs : Int) := by
  unfold check_file_offset at h
  by_cases hc : off < 0 ∨ off > (fs : Int)
  · rw [if_pos hc] at h
    cases h
  · rw [if_neg hc] at h
    omega

/-- check_file_offset rejects every offset outside [0, file size] with
InvalidFileOffset carrying the offending value and the file size. -/
theorem check_file_offset_err {fs : Nat} {off : Int} (h : off < 0 ∨ off > (fs : Int)) :
    check_file_offset fs off = Except.error (ParseError.InvalidFileOffset off fs) := by
  unfold check_file_offset
  rw [if_pos h]

/-! Concrete streams and runs shared by several claims. -/

/-- A 128-byte header prefix: legacy file version -7 (so UE5 version 0),
total_header_size 204, every offset 0, and a declared generation count of 4
at byte position 124. -/
def c2Stream : List Nat :=
  [0xc1, 0x83, 0x2a, 0x9e] ++ [0xf9, 0xff, 0xff, 0xff] ++ List.replicate 16 0 ++
  [0xcc, 0, 0, 0] ++ List.replicate 96 0 ++ [4, 0, 0, 0]

/-- A complete 200-byte well-formed summary with UE5 version 1014
(MetadataSerializationOffset) whose metadata offset field holds 201, one
past the 200-byte file size; engine version 4.27. -/
def c3Stream : List Nat :=
  [0xc1, 0x83, 0x2a, 0x9e, 0xf8, 0xff, 0xff, 0xff] ++ List.replicate 8 0 ++
  [0xf6, 0x03, 0, 0] ++ List.replicate 64 0 ++ [0xc9, 0, 0, 0] ++
  List.replicate 56 0 ++ [4, 0, 27, 0] ++ List.replicate 52 0

/-- The summary value decoded from c3Stream. -/
def c3Summary : UassetSummary where
  tag := 0x9e2a83c1
  legacy_file_version := -8
  legacy_ue3_version := 0
  file_version_ue4 := 0
  file_version_ue5 := 1014
  file_version_licensee_ue4 := 0
  saved_hash := none
  total_header_size := 0
  custom_versions := []
  package_name := []
  package_flags := 0
  name_count := 0
  name_offset := 0
  soft_object_paths_count := some 0
  soft_object_paths_offset := some 0
  localization_id := []
  gatherable_text_data_count := 0
  gatherable_text_data_offset := 0
  export_count := 0
  export_offset := 0
  import_count := 0
  import_offset := 0
  cell_export_count := none
  cell_export_offset := none
  cell_import_count := none
  cell_import_offset := none
  metadata_offset := some 201
  depends_offset := 0
  soft_package_references_count := 0
  soft_package_references_offset := 0
  searchable_names_offset := 0
  thumbnail_table_offset := 0
  guid := some (List.replicate 16 0)
  persistent_guid := List.replicate 16 0
  generations := []
  saved_by_engine_version_major := 4
  saved_by_engine_version_minor := 27
  saved_by_engine_version_patch := 0
  saved_by_engine_version_changelist := 0
  saved_by_engine_version_name := []
  compatible_engine_version_major := 0
  compatible_engine_version_minor := 0
  compatible_engine_version_patch := 0
  compatible_engine_version_changelist := 0
  compatible_engine_version_name := []
  compression_flags := 0
  compressed_chunks := []
  package_source := 0
  additional_packages_to_cook := []
  asset_registry_data_offset := 0
  bulk_data_start_offset := 0

set_option maxRecDepth 4000 in
/-- The decode of c3Stream succeeds, ending at position 200, even though
its metadata offset 201 lies outside [0, 200]. -/
theorem c3_run : read_uasset_summary 200 true { data := c3Stream, pos := 0 }
    = some (Except.ok c3Summary, { data := c3Stream, pos := 200 }) := by
  unfold read_uasset_summary
  refine (step _ () { data := c3Stream, pos := 0 } rfl).trans ?_
  refine (step _ 0x9e2a83c1 { data := c3Stream, pos := 4 } rfl).trans ?_
  refine (step _ () { data := c3Stream, pos := 4 } rfl).trans ?_
  refine (step _ (-8 : Int) { data := c3Stream, pos := 8 } rfl).trans ?_
  refine (step _ () { data := c3Stream, pos := 8 } rfl).trans ?_
  refine (step _ (0 : Int) { data := c3Stream, pos := 12 } rfl).trans ?_
  refine (step _ (0 : Int) { data := c3Stream, pos := 16 } rfl).trans ?_
  refine (step _ (1014 : Int) { data := c3Stream, pos := 20 } rfl).trans ?_
  refine (step _ 0 { data := c3Stream, pos := 24 } rfl).trans ?_
  refine (step _ ((none : Option (List Nat)), (0 : Int)) { data := c3Stream, pos := 24 } rfl).trans ?_
  refine (step _ ([] : List (List Nat)) { data := c3Stream, pos := 28 } rfl).trans ?_
  refine (step _ (0 : Int) { data := c3Stream, pos := 32 } rfl).trans ?_
  refine (step _ ([] : List Nat) { data := c3Stream, pos := 36 } rfl).trans ?_
  refine (step _ 0 { data := c3Stream, pos := 40 } rfl).trans ?_
  refine (step _ (0 : Int) { data := c3Stream, pos := 44 } rfl).trans ?_
  refine (step _ (0 : Int) { data := c3Stream, pos := 48 } rfl).trans ?_
  refine (step _ (some (0 : Int), some (0 : Int)) { data := c3Stream, pos := 56 } rfl).trans ?_
  refine (step _ ([] : List Nat) { data := c3Stream, pos := 60 } rfl).trans ?_
  refine (step _ (0 : Int) { data := c3Stream, pos := 64 } rfl).trans ?_
  refine (step _ (0 : Int) { data := c3Stream, pos := 68 } rfl).trans ?_
  refine (step _ (0 : Int) { data := c3Stream, pos := 72 } rfl).trans ?_
  refine (step _ (0 : Int) { data := c3Stream, pos := 76 } rfl).trans ?_
  refine (step _ (0 : Int) { data := c3Stream, pos := 80 } rfl).trans ?_
  refine (step _ (0 : Int) { data := c3Stream, pos := 84 } rfl).trans ?_
  refine (step _ ((none : Option Int), (none : Option Int), (none : Option Int), (none : Option Int)) { data := c3Stream, pos := 84 } rfl).trans ?_
  refine (step _ (some (201 : Int)) { data := c3Stream, pos := 88 } rfl).trans ?_
  refine (step _ (0 : Int) { data := c3Stream, pos := 92 } rfl).trans ?_
  refine (step _ (0 : Int) { data := c3Stream, pos := 96 } rfl).trans ?_
  refine (step _ (0 : Int) { data := c3Stream, pos := 100 } rfl).trans ?_
  refine (step _ (0 : Int) { data := c3Stream, pos := 104 } rfl).trans ?_
  refine (step _ (0 : Int) { data := c3Stream, pos := 108 } rfl).trans ?_
  refine (step _ (some (List.replicate 16 0)) { data := c3Stream, pos := 124 } rfl).trans ?_
  refine (step _ (List.replicate 16 0) { data := c3Stream, pos := 140 } rfl).trans ?_
  refine (step _ () { data := c3Stream, pos := 140 } rfl).trans ?_
  refine (step _ () { data := c3Stream, pos := 140 } rfl).trans ?_
  refine (step _ () { data := c3Stream, pos := 140 } rfl).trans ?_
  refine (step _ () { data := c3Stream, pos := 140 } rfl).trans ?_
  refine (step _ () { data := c3Stream, pos := 140 } rfl).trans ?_
  refine (step _ () { data := c3Stream, pos := 140 } rfl).trans ?_
  refine (step _ () { data := c3Stream, pos := 140 } rfl).trans ?_
  refine (step _ (140 : Nat) { data := c3Stream, pos := 140 } rfl).trans ?_
  refine (step _ ([] : List (List Nat)) { data := c3Stream, pos := 144 } rfl).trans ?_
  refine (step _ 4 { data := c3Stream, pos := 146 } rfl).trans ?_
  refine (step _ 27 { data := c3Stream, pos := 148 } rfl).trans ?_
  refine (step _ 0 { data := c3Stream, pos := 150 } rfl).trans ?_
  refine (step _ 0 { data := c3Stream, pos := 154 } rfl).trans ?_
  refine (step _ ([] : List Nat) { data := c3Stream, pos := 158 } rfl).trans ?_
  refine (step _ 0 { data := c3Stream, pos := 160 } rfl).trans ?_
  refine (step _ 0 { data := c3Stream, pos := 162 } rfl).trans ?_
  refine (step _ 0 { data := c3Stream, pos := 164 } rfl).trans ?_
  refine (step _ 0 { data := c3Stream, pos := 168 } rfl).trans ?_
  refine (step _ ([] : List Nat) { data := c3Stream, pos := 172 } rfl).trans ?_
  refine (step _ () { data := c3Stream, pos := 172 } rfl).trans ?_
  refine (step _ 0 { data := c3Stream, pos := 176 } rfl).trans ?_
  refine (step _ () { data := c3Stream, pos := 176 } rfl).trans ?_
  refine (step _ (176 : Nat) { data := c3Stream, pos := 176 } rfl).trans ?_
  refine (step _ ([] : List (List Nat)) { data := c3Stream, pos := 180 } rfl).trans ?_
  refine (step _ () { data := c3Stream, pos := 180 } rfl).trans ?_
  refine (step _ 0 { data := c3Stream, pos := 184 } rfl).trans ?_
  refine (step _ (184 : Nat) { data := c3Stream, pos := 184 } rfl).trans ?_
  refine (step _ ([] : List (List Nat)) { data := c3Stream, pos := 188 } rfl).trans ?_
  refine (step _ (0 : Int) { data := c3Stream, pos := 192 } rfl).trans ?_
  refine (step _ (0 : Int) { data := c3Stream, pos := 200 } rfl).trans ?_
  refine (step _ () { data := c3Stream, pos := 200 } rfl).trans ?_
  refine (step _ () { data := c3Stream, pos := 200 } rfl).trans ?_
  rfl

set_option maxRecDepth 4000 in
/-- The decode of c2Stream reaches the generation list at position 124 with
total_header_size 204, computes the bound (204 - 125) / 20 = 3, and rejects
the declared count 4. -/
theorem c2_run :
    read_uasset_summary 128 true { data := c2Stream, pos := 0 }
    = some (Except.error (ParseError.InvalidArraySize 4),
        { data := c2Stream, pos := 128 }) := rfl

/-- The saved-hash/total-header-size gated read yields a Some hash exactly
when its condition holds. -/
theorem gated_savedhash {c : Prop} [Decidable c] {s s' : ByteStream}
    {v : Option (List Nat) × Int}
    (h : version_gated c
      (do
        let hash ← readBytes 20
        let ths ← readI32
        pure (some hash, ths))
      ((none : Option (List Nat)), (0 : Int)) s = some (Except.ok v, s')) :
    v.1.isSome ↔ c := by
  by_cases hc : c
  · rw [version_gated_pos hc] at h
    obtain ⟨hash, s₁, h₁, h₂⟩ := bind_ok h
    obtain ⟨ths, s₂, h₃, h₄⟩ := bind_ok h₂
    obtain ⟨rfl, -⟩ := pure_ok h₄
    simp [hc]
  · rw [version_gated_neg hc] at h
    obtain ⟨rfl, -⟩ := mpure_ok h
    simp [hc]

/-- The soft-object-path gated read yields Some count and offset exactly
when its condition holds. -/
theorem gated_soft {c : Prop} [Decidable c] {s s' : ByteStream}
    {v : Option Int × Option Int}
    (h : version_gated c
      (do
        let c ← readI32
        let o ← readI32
        pure (some c, some o))
      ((none : Option Int), (none : Option Int)) s = some (Except.ok v, s')) :
    (v.1.isSome ↔ c) ∧ (v.2.isSome ↔ c) := by
  by_cases hc : c
  · rw [version_gated_pos hc] at h
    obtain ⟨a, s₁, h₁, h₂⟩ := bind_ok h
    obtain ⟨b, s₂, h₃, h₄⟩ := bind_ok h₂
    obtain ⟨rfl, -⟩ := pure_ok h₄
    simp [hc]
  · rw [version_gated_neg hc] at h
    obtain ⟨rfl, -⟩ := mpure_ok h
    simp [hc]

/-- The cell-descriptor gated read yields four Some values exactly when its
condition holds. -/
theorem gated_cells {c : Prop} [Decidable c] {s s' : ByteStream}
    {v : Option Int × Option Int × Option Int × Option Int}
    (h : version_gated c
      (do
        let ec ← readI32
        let eo ← readI32
        let ic ← readI32
        let io2 ← readI32
        pure (some ec, some eo, some ic, some io2))
      ((none : Option Int), (none : Option Int), (none : Option Int), (none : Option Int)) s
      = some (Except.ok v, s')) :
    (v.1.isSome ↔ c) ∧ (v.2.1.isSome ↔ c) ∧ (v.2.2.1.isSome ↔ c) ∧ (v.2.2.2.isSome ↔ c) := by
  by_cases hc : c
  · rw [version_gated_pos hc] at h
    obtain ⟨a, s₁, h₁, h₂⟩ := bind_ok h
    obtain ⟨b, s₂, h₃, h₄⟩ := bind_ok h₂
    obtain ⟨d, s₃, h₅, h₆⟩ := bind_ok h₄
    obtain ⟨e, s₄, h₇, h₈⟩ := bind_ok h₆
    obtain ⟨rfl, -⟩ := pure_ok h₈
    simp [hc]
  · rw [version_gated_neg hc] at h
    obtain ⟨rfl, -⟩ := mpure_ok h
    simp [hc]

/-- The metadata-offset gated read yields a Some value exactly when its
condition holds. -/
theorem gated_metadata {c : Prop} [Decidable c] {s s' : ByteStream} {v : Option Int}
    (h : version_gated c
      (do
        let m ← readI32
        pure (some m))
      (none : Option Int) s = some (Except.ok v, s')) :
    v.isSome ↔ c := by
  by_cases hc : c
  · rw [version_gated_pos hc] at h
    obtain ⟨a, s₁, h₁, h₂⟩ := bind_ok h
    obtain ⟨rfl, -⟩ := pure_ok h₂
    simp [hc]
  · rw [version_gated_neg hc] at h
    obtain ⟨rfl, -⟩ := mpure_ok h
    simp [hc]

/-- The legacy-guid gated read yields a Some value exactly when its
condition holds. -/
theorem gated_guid {c : Prop} [Decidable c] {s s' : ByteStream} {v : Option (List Nat)}
    (h : version_gated c
      (do
        let g ← readBytes 16
        pure (some g))
      (none : Option (List Nat)) s = some (Except.ok v, s')) :
    v.isSome ↔ c := by
  by_cases hc : c
  · rw [version_gated_pos hc] at h
    obtain ⟨a, s₁, h₁, h₂⟩ := bind_ok h
    obtain ⟨rfl, -⟩ := pure_ok h₂
    simp [hc]
  · rw [version_gated_neg hc] at h
    obtain ⟨rfl, -⟩ := mpure_ok h
    simp [hc]

set_option maxRecDepth 4000 in
/-- Inversion of a successful summary decode: every optional field is Some
exactly when its version threshold holds, and the seven offsets validated
at src/parser.rs:451-457 lie in [0, file size]. -/
theorem summary_ok_inv {fs : Nat} {allow : Bool} {st st' : ByteStream} {s : UassetSummary}
    (h : read_uasset_summary fs allow st = some (Except.ok s, st')) :
    ((s.saved_hash.isSome ↔
        s.file_version_ue5 ≥ EUnrealEngineObjectUE5Version.PackageSavedHash) ∧
     (s.guid.isSome ↔
        s.file_version_ue5 < EUnrealEngineObjectUE5Version.PackageSavedHash) ∧
     (s.soft_object_paths_count.isSome ↔
        s.file_version_ue5 ≥ EUnrealEngineObjectUE5Version.AddSoftObjectPathList) ∧
     (s.soft_object_paths_offset.isSome ↔
        s.file_version_ue5 ≥ EUnrealEngineObjectUE5Version.AddSoftObjectPathList) ∧
     (s.cell_export_count.isSome ↔
        s.file_version_ue5 ≥ EUnrealEngineObjectUE5Version.VerseCells) ∧
     (s.cell_export_offset.isSome ↔
        s.file_version_ue5 ≥ EUnrealEngineObjectUE5Version.VerseCells) ∧
     (s.cell_import_count.isSome ↔
        s.file_version_ue5 ≥ EUnrealEngineObjectUE5Version.VerseCells) ∧
     (s.cell_import_offset.isSome ↔
        s.file_version_ue5 ≥ EUnrealEngineObjectUE5Version.VerseCells) ∧
     (s.metadata_offset.isSome ↔
        s.file_version_ue5 ≥ EUnrealEngineObjectUE5Version.MetadataSerializationOffset)) ∧
    ((0 ≤ s.gatherable_text_data_offset ∧ s.gatherable_text_data_offset ≤ (fs : Int)) ∧
     (0 ≤ s.export_offset ∧ s.export_offset ≤ (fs : Int)) ∧
     (0 ≤ s.import_offset ∧ s.import_offset ≤ (fs : Int)) ∧
     (0 ≤ s.depends_offset ∧ s.depends_offset ≤ (fs : Int)) ∧
     (0 ≤ s.soft_package_references_offset ∧
        s.soft_package_references_offset ≤ (fs : Int)) ∧
     (0 ≤ s.searchable_names_offset ∧ s.searchable_names_offset ≤ (fs : Int)) ∧
     (0 ≤ s.thumbnail_table_offset ∧ s.thumbnail_table_offset ≤ (fs : Int))) := by
  unfold read_uasset_summary at h
  obtain ⟨u0, t1, h1, h⟩ := bind_ok h
  obtain ⟨tag, t2, h2, h⟩ := bind_ok h
  obtain ⟨u1, t3, h3, h⟩ := bind_ok h
  obtain ⟨lfv, t4, h4, h⟩ := bind_ok h
  obtain ⟨u2, t5, h5, h⟩ := bind_ok h
  obtain ⟨ue3v, t6, h6, h⟩ := bind_ok h
  obtain ⟨ue4v, t7, h7, h⟩ := bind_ok h
  obtain ⟨ue5v, t8, h8, h⟩ := bind_ok h
  obtain ⟨lic, t9, h9, h⟩ := bind_ok h
  obtain ⟨shs, t10, h10, h⟩ := bind_ok h
  obtain ⟨cv, t11, h11, h⟩ := bind_ok h
  obtain ⟨ths, t12, h12, h⟩ := bind_ok h
  obtain ⟨pname, t13, h13, h⟩ := bind_ok h
  obtain ⟨pflags, t14, h14, h⟩ := bind_ok h
  obtain ⟨ncount, t15, h15, h⟩ := bind_ok h
  obtain ⟨noff, t16, h16, h⟩ := bind_ok h
  obtain ⟨softp, t17, h17, h⟩ := bind_ok h
  obtain ⟨locid, t18, h18, h⟩ := bind_ok h
  obtain ⟨gtc, t19, h19, h⟩ := bind_ok h
  obtain ⟨gto, t20, h20, h⟩ := bind_ok h
  obtain ⟨ecnt, t21, h21, h⟩ := bind_ok h
  obtain ⟨eoff, t22, h22, h⟩ := bind_ok h
  obtain ⟨icnt, t23, h23, h⟩ := bind_ok h
  obtain ⟨ioff, t24, h24, h⟩ := bind_ok h
  obtain ⟨cells, t25, h25, h⟩ := bind_ok h
  obtain ⟨mdo, t26, h26, h⟩ := bind_ok h
  obtain ⟨dep, t27, h27, h⟩ := bind_ok h
  obtain ⟨sprc, t28, h28, h⟩ := bind_ok h
  obtain ⟨spro, t29, h29, h⟩ := bind_ok h
  obtain ⟨sno, t30, h30, h⟩ := bind_ok h
  obtain ⟨tto, t31, h31, h⟩ := bind_ok h
  obtain ⟨gd, t32, h32, h⟩ := bind_ok h
  obtain ⟨pg, t33, h33, h⟩ := bind_ok h
  obtain ⟨u3, t34, hk1, h⟩ := bind_ok h
  obtain ⟨u4, t35, hk2, h⟩ := bind_ok h
  obtain ⟨u5, t36, hk3, h⟩ := bind_ok h
  obtain ⟨u6, t37, hk4, h⟩ := bind_ok h
  obtain ⟨u7, t38, hk5, h⟩ := bind_ok h
  obtain ⟨u8, t39, hk6, h⟩ := bind_ok h
  obtain ⟨u9, t40, hk7, h⟩ := bind_ok h
  obtain ⟨cpos, t41, h41, h⟩ := bind_ok h
  obtain ⟨gens, t42, h42, h⟩ := bind_ok h
  obtain ⟨sbM, t43, h43, h⟩ := bind_ok h
  obtain ⟨sbm, t44, h44, h⟩ := bind_ok h
  obtain ⟨sbp, t45, h45, h⟩ := bind_ok h
  obtain ⟨sbc, t46, h46, h⟩ := bind_ok h
  obtain ⟨sbn, t47, h47, h⟩ := bind_ok h
  obtain ⟨cgM, t48, h48, h⟩ := bind_ok h
  obtain ⟨cgm, t49, h49, h⟩ := bind_ok h
  obtain ⟨cgp, t50, h50, h⟩ := bind_ok h
  obtain ⟨cgc, t51, h51, h⟩ := bind_ok h
  obtain ⟨cgn, t52, h52, h⟩ := bind_ok h
  obtain ⟨u10, t53, h53, h⟩ := bind_ok h
  obtain ⟨cflags, t54, h54, h⟩ := bind_ok h
  obtain ⟨u11, t55, h55, h⟩ := bind_ok h
  obtain ⟨p2, t56, h56, h⟩ := bind_ok h
  obtain ⟨chunks, t57, h57, h⟩ := bind_ok h
  obtain ⟨u12, t58, h58, h⟩ := bind_ok h
  obtain ⟨psrc, t59, h59, h⟩ := bind_ok h
  obtain ⟨p3, t60, h60, h⟩ := bind_ok h
  obtain ⟨apc, t61, h61, h⟩ := bind_ok h
  obtain ⟨aro, t62, h62, h⟩ := bind_ok h
  obtain ⟨bds, t63, h63, h⟩ := bind_ok h
  obtain ⟨u13, t64, hk8, h⟩ := bind_ok h
  obtain ⟨u14, t65, hk9, h⟩ := bind_ok h
  obtain ⟨rfl, -⟩ := pure_ok h
  refine ⟨⟨gated_savedhash h10, gated_guid h32, (gated_soft h17).1, (gated_soft h17).2,
    (gated_cells h25).1, (gated_cells h25).2.1, (gated_cells h25).2.2.1,
    (gated_cells h25).2.2.2, gated_metadata h26⟩,
    check_file_offset_ok (liftE_ok hk1).1, check_file_offset_ok (liftE_ok hk2).1,
    check_file_offset_ok (liftE_ok hk3).1, check_file_offset_ok (liftE_ok hk4).1,
    check_file_offset_ok (liftE_ok hk5).1, check_file_offset_ok (liftE_ok hk6).1,
    check_file_offset_ok (liftE_ok hk7).1⟩

/-! Claim C1: FString decode, positive-length branch. -/

/-- C1 (amended): for every stream whose next i32 length prefix L is
positive, read_fstring reads exactly L payload bytes, validates UTF-8 over
only the first L-1 of them, discards the final byte without checking that
it is the NUL terminator, and returns the decoded first L-1 bytes; invalid
UTF-8 within the first L-1 bytes is rejected with an encoding error, while
the value of the final byte never influences the result. -/
theorem C1_fstring_positive_branch {s : ByteStream} {L : Int} {s₁ : ByteStream}
    {buf : List Nat} {s₂ : ByteStream}
    (h1 : readI32 s = some (Except.ok L, s₁)) (hL : 0 < L)
    (h2 : readBytes L.toNat s₁ = some (Except.ok buf, s₂)) :
    read_fstring s = (match utf8Decode (List.take (L.toNat - 1) buf) with
      | some cs => some (Except.ok cs, s₂)
      | none => some (Except.error ParseError.InvalidUtf8, s₂)) ∧
    s₂.pos = s₁.pos + L.toNat := by
  constructor
  · unfold read_fstring
    rw [step _ L s₁ h1]
    rw [if_neg (show ¬(L = 0) by omega)]
    rw [if_neg (show ¬(L < 0) by omega)]
    rw [step _ L s₁ (show M.pure L s₁ = some (Except.ok L, s₁) from rfl)]
    simp only [if_neg (show ¬(L < 0) by omega)]
    rw [step _ buf s₂ h2]
    cases hu : utf8Decode (List.take (L.toNat - 1) buf) with
    | none => rfl
    | some cs => rfl
  · rw [(readBytes_ok h2).1]

/-- C1 counterexample: the stream with L = 2 and payload bytes [0x41, 0xFF]
has a non-NUL final byte and is not valid UTF-8 over all 2 bytes, yet
read_fstring accepts it and returns "A". -/
theorem C1_counterexample :
    read_fstring { data := [2, 0, 0, 0, 0x41, 0xFF], pos := 0 } =
      some (Except.ok [0x41], { data := [2, 0, 0, 0, 0x41, 0xFF], pos := 6 }) ∧
    utf8Decode [0x41, 0xFF] = none ∧ (0xFF : Nat) ≠ 0 :=
  ⟨rfl, rfl, by decide⟩

/-- C1 witness: the amended theorem evaluated on the L = 2 stream. -/
theorem C1_witness :
    read_fstring { data := [2, 0, 0, 0, 65, 255], pos := 0 } =
      some (Except.ok [65], { data := [2, 0, 0, 0, 65, 255], pos := 6 }) ∧
    ({ data := [2, 0, 0, 0, 65, 255], pos := 6 } : ByteStream).pos =
      ({ data := [2, 0, 0, 0, 65, 255], pos := 4 } : ByteStream).pos + (2 : Int).toNat := by
  have h := C1_fstring_positive_branch
    (show readI32 { data := [2, 0, 0, 0, 65, 255], pos := 0 } =
      some (Except.ok 2, { data := [2, 0, 0, 0, 65, 255], pos := 4 }) from rfl)
    (by decide)
    (show readBytes (2 : Int).toNat { data := [2, 0, 0, 0, 65, 255], pos := 4 } =
      some (Except.ok [65, 255], { data := [2, 0, 0, 0, 65, 255], pos := 6 }) from rfl)
  exact ⟨h.1.trans rfl, h.2⟩

/-! Claim C9: totality of read_fstring on adversarial input. -/

/-- C9: the four bytes 00 00 00 80 decode as the i32 length prefix
i32::MIN, on which read_fstring does not return at all: the negation
-size overflows i32 (a panic under debug overflow checks; under release
semantics the wrapped value drives an unsatisfiable huge allocation). -/
theorem C9_fstring_min_prefix_panics :
    toSigned 32 (leVal [0, 0, 0, 0x80]) = -(2 ^ 31) ∧
    read_fstring { data := [0, 0, 0, 0x80], pos := 0 } = none :=
  ⟨by decide, rfl⟩

/-! Claim C2: the generation-list sanity bound. -/

/-- C2 counterexample: in the c2Stream header the generation list starts at
position 124 with total_header_size 204; the claim's bound
(204 - 124) / 8 = 10 accepts the declared count 4, but the decoder
computes (204 - 125) / 20 = 3 and rejects the count with InvalidArraySize. -/
theorem C2_counterexample :
    (4 : Int) ≤ (204 - 124) / 8 ∧
    max_generations 204 124 = 3 ∧
    read_uasset_summary 128 true { data := c2Stream, pos := 0 } =
      some (Except.error (ParseError.InvalidArraySize 4),
        { data := c2Stream, pos := 128 }) :=
  ⟨by decide, by decide, c2_run⟩

/-- C2 (amended): the generation-list sanity bound is
(total_header_size as u64, saturating-subtract (current_position + 1)) / 20,
saturating at 0; a declared count at most this bound is accepted, upon
which that many 8-byte records are read, and a negative or larger count is
rejected with InvalidArraySize. -/
theorem C2_generation_bound (ths : Int) (cpos : Nat) {s s₁ : ByteStream} {n : Int}
    (h : readI32 s = some (Except.ok n, s₁)) :
    max_generations ths cpos = (i32AsU64 ths - (cpos + 1)) / 20 ∧
    (¬(n < 0 ∨ n.toNat > max_generations ths cpos) →
      read_tarray (readBytes 8) (max_generations ths cpos) s =
        read_tarrayLoop (readBytes 8) n.toNat s₁) ∧
    ((n < 0 ∨ n.toNat > max_generations ths cpos) →
      read_tarray (readBytes 8) (max_generations ths cpos) s =
        some (Except.error (ParseError.InvalidArraySize n), s₁)) ∧
    (∀ (k : Nat) (l : List (List Nat)) (s₂ s₃ : ByteStream),
      read_tarrayLoop (readBytes 8) k s₂ = some (Except.ok l, s₃) →
      l.length = k ∧ s₃.pos = s₂.pos + 8 * k) := by
  refine ⟨rfl, ?_, ?_, ?_⟩
  · intro hc
    unfold read_tarray
    rw [step _ n s₁ h]
    rw [if_neg hc]
  · intro hc
    unfold read_tarray
    rw [step _ n s₁ h]
    rw [if_pos hc]
    rfl
  · intro k
    induction k with
    | zero =>
      intro l s₂ s₃ hl
      obtain ⟨rfl, rfl⟩ := mpure_ok hl
      exact ⟨rfl, by omega⟩
    | succ j ih =>
      intro l s₂ s₃ hl
      unfold read_tarrayLoop at hl
      obtain ⟨a, u₁, ha, hl⟩ := bind_ok hl
      obtain ⟨rest, u₂, hr, hl⟩ := bind_ok hl
      obtain ⟨rfl, hs3⟩ := pure_ok hl
      have hb := (readBytes_ok ha).1
      obtain ⟨hlen, hpos⟩ := ih rest u₁ u₂ hr
      refine ⟨by simp [hlen], ?_⟩
      rw [hs3, hpos, hb]
      show s₂.pos + 8 + 8 * j = s₂.pos + 8 * (j + 1)
      omega

/-- C2 witness: at total_header_size 204 and position 124 the bound is 3;
a declared count of 4 is rejected with InvalidArraySize 4 and a declared
count of 2 proceeds to read 2 records. -/
theorem C2_witness :
    read_tarray (readBytes 8) (max_generations 204 124) { data := [4, 0, 0, 0], pos := 0 } =
      some (Except.error (ParseError.InvalidArraySize 4), { data := [4, 0, 0, 0], pos := 4 }) ∧
    read_tarray (readBytes 8) (max_generations 204 124)
        { data := [2, 0, 0, 0] ++ List.replicate 16 7, pos := 0 } =
      read_tarrayLoop (readBytes 8) 2
        { data := [2, 0, 0, 0] ++ List.replicate 16 7, pos := 4 } := by
  constructor
  · exact (C2_generation_bound 204 124
      (show readI32 { data := [4, 0, 0, 0], pos := 0 } =
        some (Except.ok 4, { data := [4, 0, 0, 0], pos := 4 }) from rfl)).2.2.1 (by decide)
  · exact (C2_generation_bound 204 124
      (show readI32 { data := [2, 0, 0, 0] ++ List.replicate 16 7, pos := 0 } =
        some (Except.ok 2, { data := [2, 0, 0, 0] ++ List.replicate 16 7, pos := 4 })
        from rfl)).2.1 (by decide)

/-! Claim C3: offset validation in summary step 13. -/

/-- C3 counterexample: c3Stream decodes successfully although its metadata
offset 201 lies outside [0, 200]: the metadata offset is not validated. -/
theorem C3_counterexample :
    read_uasset_summary 200 true { data := c3Stream, pos := 0 } =
      some (Except.ok c3Summary, { data := c3Stream, pos := 200 }) ∧
    c3Summary.metadata_offset = some 201 ∧
    ((201 : Int) < 0 ∨ (201 : Int) > (200 : Nat)) :=
  ⟨c3_run, rfl, by decide⟩

/-- C3 (amended): of the offsets read in steps 9-12, exactly the seven
gatherable-text, export, import, depends, soft-package-reference,
searchable-names and thumbnail-table offsets are validated against
[0, file_size] — every successful decode has them in range, and
check_file_offset rejects a value outside the range with InvalidFileOffset —
while the cell-export/cell-import offsets and the metadata offset are not
validated at all. -/
theorem C3_offset_validation :
    (∀ (fs : Nat) (allow : Bool) (st st' : ByteStream) (s : UassetSummary),
      read_uasset_summary fs allow st = some (Except.ok s, st') →
      (0 ≤ s.gatherable_text_data_offset ∧ s.gatherable_text_data_offset ≤ (fs : Int)) ∧
      (0 ≤ s.export_offset ∧ s.export_offset ≤ (fs : Int)) ∧
      (0 ≤ s.import_offset ∧ s.import_offset ≤ (fs : Int)) ∧
      (0 ≤ s.depends_offset ∧ s.depends_offset ≤ (fs : Int)) ∧
      (0 ≤ s.soft_package_references_offset ∧
        s.soft_package_references_offset ≤ (fs : Int)) ∧
      (0 ≤ s.searchable_names_offset ∧ s.searchable_names_offset ≤ (fs : Int)) ∧
      (0 ≤ s.thumbnail_table_offset ∧ s.thumbnail_table_offset ≤ (fs : Int))) ∧
    (∀ (fs : Nat) (off : Int), (off < 0 ∨ off > (fs : Int)) →
      check_file_offset fs off = Except.error (ParseError.InvalidFileOffset off fs)) :=
  ⟨fun _ _ _ _ _ h => (summary_ok_inv h).2, fun _ _ h => check_file_offset_err h⟩

/-- C3 witness: the validated offsets of the successfully decoded c3Summary
are all in [0, 200], and check_file_offset rejects 201. -/
theorem C3_witness :
    ((0 ≤ c3Summary.gatherable_text_data_offset ∧
        c3Summary.gatherable_text_data_offset ≤ (200 : Int)) ∧
      (0 ≤ c3Summary.export_offset ∧ c3Summary.export_offset ≤ (200 : Int)) ∧
      (0 ≤ c3Summary.import_offset ∧ c3Summary.import_offset ≤ (200 : Int)) ∧
      (0 ≤ c3Summary.depends_offset ∧ c3Summary.depends_offset ≤ (200 : Int)) ∧
      (0 ≤ c3Summary.soft_package_references_offset ∧
        c3Summary.soft_package_references_offset ≤ (200 : Int)) ∧
      (0 ≤ c3Summary.searchable_names_offset ∧
        c3Summary.searchable_names_offset ≤ (200 : Int)) ∧
      (0 ≤ c3Summary.thumbnail_table_offset ∧
        c3Summary.thumbnail_table_offset ≤ (200 : Int))) ∧
    check_file_offset 200 201 =
      Except.error (ParseError.InvalidFileOffset 201 200) :=
  ⟨C3_offset_validation.1 200 true _ _ _ c3_run,
    C3_offset_validation.2 200 201 (by decide)⟩

/-! Claim C7: optional summary fields are populated iff their version
thresholds hold. -/

/-- C7: in every successfully decoded summary, saved_hash is Some iff the
UE5 version is at least PackageSavedHash, the legacy guid is Some iff it is
below PackageSavedHash, the soft-object-path count and offset are Some iff
it is at least AddSoftObjectPathList, the four cell descriptors are Some
iff it is at least VerseCells, and metadata_offset is Some iff it is at
least MetadataSerializationOffset. -/
theorem C7_optional_fields_iff_thresholds {fs : Nat} {allow : Bool}
    {st st' : ByteStream} {s : UassetSummary}
    (h : read_uasset_summary fs allow st = some (Except.ok s, st')) :
    (s.saved_hash.isSome ↔
      s.file_version_ue5 ≥ EUnrealEngineObjectUE5Version.PackageSavedHash) ∧
    (s.guid.isSome ↔
      s.file_version_ue5 < EUnrealEngineObjectUE5Version.PackageSavedHash) ∧
    (s.soft_object_paths_count.isSome ↔
      s.file_version_ue5 ≥ EUnrealEngineObjectUE5Version.AddSoftObjectPathList) ∧
    (s.soft_object_paths_offset.isSome ↔
      s.file_version_ue5 ≥ EUnrealEngineObjectUE5Version.AddSoftObjectPathList) ∧
    (s.cell_export_count.isSome ↔
      s.file_version_ue5 ≥ EUnrealEngineObjectUE5Version.VerseCells) ∧
    (s.cell_export_offset.isSome ↔
      s.file_version_ue5 ≥ EUnrealEngineObjectUE5Version.VerseCells) ∧
    (s.cell_import_count.isSome ↔
      s.file_version_ue5 ≥ EUnrealEngineObjectUE5Version.VerseCells) ∧
    (s.cell_import_offset.isSome ↔
      s.file_version_ue5 ≥ EUnrealEngineObjectUE5Version.VerseCells) ∧
    (s.metadata_offset.isSome ↔
      s.file_version_ue5 ≥ EUnrealEngineObjectUE5Version.MetadataSerializationOffset) :=
  (summary_ok_inv h).1

/-- C7 witness: the threshold iffs evaluated on the decoded c3Summary,
whose UE5 version is 1014. -/
theorem C7_witness :
    (c3Summary.saved_hash.isSome ↔
      c3Summary.file_version_ue5 ≥ EUnrealEngineObjectUE5Version.PackageSavedHash) ∧
    (c3Summary.guid.isSome ↔
      c3Summary.file_version_ue5 < EUnrealEngineObjectUE5Version.PackageSavedHash) ∧
    (c3Summary.soft_object_paths_count.isSome ↔
      c3Summary.file_version_ue5 ≥ EUnrealEngineObjectUE5Version.AddSoftObjectPathList) ∧
    (c3Summary.soft_object_paths_offset.isSome ↔
      c3Summary.file_version_ue5 ≥ EUnrealEngineObjectUE5Version.AddSoftObjectPathList) ∧
    (c3Summary.cell_export_count.isSome ↔
      c3Summary.file_version_ue5 ≥ EUnrealEngineObjectUE5Version.VerseCells) ∧
    (c3Summary.cell_export_offset.isSome ↔
      c3Summary.file_version_ue5 ≥ EUnrealEngineObjectUE5Version.VerseCells) ∧
    (c3Summary.cell_import_count.isSome ↔
      c3Summary.file_version_ue5 ≥ EUnrealEngineObjectUE5Version.VerseCells) ∧
    (c3Summary.cell_import_offset.isSome ↔
      c3Summary.file_version_ue5 ≥ EUnrealEngineObjectUE5Version.VerseCells) ∧
    (c3Summary.metadata_offset.isSome ↔
      c3Summary.file_version_ue5 ≥ EUnrealEngineObjectUE5Version.MetadataSerializationOffset) :=
  C7_optional_fields_iff_thresholds c3_run

/-! Claim C4: export-entry boundary at TrackObjectExportIsInherited. -/

/-- Byte size of one export-table entry as a function of the UE5 version:
56 fixed bytes, the discarded 16-byte legacy guid below
RemoveObjectExportPackageGuid, the 4-byte inherited flag strictly above
TrackObjectExportIsInherited, 12 fixed bytes, the 4-byte public-hash flag
from OptionalResources on, and 36 trailing fixed bytes. -/
def export_entry_size (v : Int) : Nat :=
  56 + (if v < EUnrealEngineObjectUE5Version.RemoveObjectExportPackageGuid then 16 else 0) +
  (if v > EUnrealEngineObjectUE5Version.TrackObjectExportIsInherited then 4 else 0) + 12 +
  (if v ≥ EUnrealEngineObjectUE5Version.OptionalResources then 4 else 0) + 36

/-- A gated boolean read: consumes 4 bytes exactly when the condition
holds, and otherwise yields the default false. -/
theorem gated_bool {c : Prop} [Decidable c] {s s' : ByteStream} {b : Bool}
    (h : version_gated c readBool32 false s = some (Except.ok b, s')) :
    s'.pos = s.pos + (if c then 4 else 0) ∧ (¬c → b = false) := by
  by_cases hc : c
  · rw [version_gated_pos hc] at h
    rw [if_pos hc]
    exact ⟨readBool32_pos h, fun hn => absurd hc hn⟩
  · rw [version_gated_neg hc] at h
    obtain ⟨rfl, rfl⟩ := mpure_ok h
    rw [if_neg hc]
    exact ⟨rfl, fun _ => rfl⟩

/-- The gated 16-byte discard consumes 16 bytes exactly when the condition
holds. -/
theorem gated_skip16 {c : Prop} [Decidable c] {s s' : ByteStream} {u : Unit}
    (h : version_gated c
      (do
        let _ ← readBytes 16
        pure ()) () s = some (Except.ok u, s')) :
    s'.pos = s.pos + (if c then 16 else 0) := by
  by_cases hc : c
  · rw [version_gated_pos hc] at h
    obtain ⟨bs, s₁, h₁, h₂⟩ := bind_ok h
    obtain ⟨-, rfl⟩ := pure_ok h₂
    rw [if_pos hc, (readBytes_ok h₁).1]
  · rw [version_gated_neg hc] at h
    obtain ⟨-, rfl⟩ := mpure_ok h
    rw [if_neg hc]
    omega

/-- C4: in every successfully read export entry, the inherited-instance
boolean is left at its default false whenever the UE5 version is not
strictly greater than TrackObjectExportIsInherited (so in particular at
exact equality), and the entry's byte size includes the 4 flag bytes
exactly when the version is strictly greater — the comparison is strict. -/
theorem C4_inherited_strict {v : Int} {st st' : ByteStream} {e : ExportEntry}
    (h : read_export_entry v st = some (Except.ok e, st')) :
    (¬ v > EUnrealEngineObjectUE5Version.TrackObjectExportIsInherited →
      e.is_inherited_instance = false) ∧
    st'.pos = st.pos + export_entry_size v := by
  unfold read_export_entry at h
  obtain ⟨ci, t1, h1, h⟩ := bind_ok h
  obtain ⟨si, t2, h2, h⟩ := bind_ok h
  obtain ⟨ti, t3, h3, h⟩ := bind_ok h
  obtain ⟨oi, t4, h4, h⟩ := bind_ok h
  obtain ⟨onm, t5, h5, h⟩ := bind_ok h
  obtain ⟨ofl, t6, h6, h⟩ := bind_ok h
  obtain ⟨ssz, t7, h7, h⟩ := bind_ok h
  obtain ⟨sof, t8, h8, h⟩ := bind_ok h
  obtain ⟨fe, t9, h9, h⟩ := bind_ok h
  obtain ⟨nfc, t10, h10, h⟩ := bind_ok h
  obtain ⟨nfs, t11, h11, h⟩ := bind_ok h
  obtain ⟨u1, t12, h12, h⟩ := bind_ok h
  obtain ⟨inh, t13, h13, h⟩ := bind_ok h
  obtain ⟨pf, t14, h14, h⟩ := bind_ok h
  obtain ⟨nal, t15, h15, h⟩ := bind_ok h
  obtain ⟨ia, t16, h16, h⟩ := bind_ok h
  obtain ⟨gph, t17, h17, h⟩ := bind_ok h
  obtain ⟨d1, t18, h18, h⟩ := bind_ok h
  obtain ⟨d2, t19, h19, h⟩ := bind_ok h
  obtain ⟨d3, t20, h20, h⟩ := bind_ok h
  obtain ⟨d4, t21, h21, h⟩ := bind_ok h
  obtain ⟨d5, t22, h22, h⟩ := bind_ok h
  obtain ⟨so1, t23, h23, h⟩ := bind_ok h
  obtain ⟨so2, t24, h24, h⟩ := bind_ok h
  obtain ⟨rfl, rfl⟩ := pure_ok h
  refine ⟨fun hn => (gated_bool h13).2 hn, ?_⟩
  have p1 := readI32_pos h1
  have p2 := readI32_pos h2
  have p3 := readI32_pos h3
  have p4 := readI32_pos h4
  have p5 := read_fname_pos h5
  have p6 := readI32_pos h6
  have p7 := readI64_pos h7
  have p8 := readI64_pos h8
  have p9 := readBool32_pos h9
  have p10 := readBool32_pos h10
  have p11 := readBool32_pos h11
  have p12 := gated_skip16 h12
  have p13 := (gated_bool h13).1
  have p14 := readU32_pos h14
  have p15 := readBool32_pos h15
  have p16 := readBool32_pos h16
  have p17 := (gated_bool h17).1
  have p18 := readI32_pos h18
  have p19 := readI32_pos h19
  have p20 := readI32_pos h20
  have p21 := readI32_pos h21
  have p22 := readI32_pos h22
  have p23 := readI64_pos h23
  have p24 := readI64_pos h24
  unfold export_entry_size
  omega

/-- A 108-byte all-zero export entry for UE5 version 1006
(TrackObjectExportIsInherited exactly). -/
def e1006Stream : List Nat := List.replicate 108 0

/-- A 112-byte export entry for UE5 version 1007 whose 4 bytes at offset 56
(the inherited-instance flag position) hold 1. -/
def e1007Stream : List Nat := List.replicate 56 0 ++ [1, 0, 0, 0] ++ List.replicate 52 0

/-- The all-zero export entry. -/
def zeroEntry : ExportEntry where
  class_index := 0
  super_index := 0
  template_index := 0
  outer_index := 0
  object_name := { index := 0, number := 0 }
  object_flags := 0
  serial_size := 0
  serial_offset := 0
  force_export := false
  not_for_client := false
  not_for_server := false
  is_inherited_instance := false
  package_flags := 0
  not_always_loaded_for_editor_game := false
  is_asset := false
  generate_public_hash := false
  first_export_dependency := 0
  serialization_before_serialization_dependencies := 0
  create_before_serialization_dependencies := 0
  serialization_before_create_dependencies := 0
  create_before_create_dependencies := 0
  script_serialization_start_offset := 0
  script_serialization_end_offset := 0

set_option maxRecDepth 4000 in
/-- At version 1006 the 108-byte entry decodes with the inherited flag at
its default false. -/
theorem e1006_run : read_export_entry 1006 { data := e1006Stream, pos := 0 } =
    some (Except.ok zeroEntry, { data := e1006Stream, pos := 108 }) := rfl

set_option maxRecDepth 4000 in
/-- At version 1007 the entry is 4 bytes longer and the inherited flag is
decoded from the stream: the nonzero bytes at offset 56 make it true. -/
theorem e1007_run : read_export_entry 1007 { data := e1007Stream, pos := 0 } =
    some (Except.ok { zeroEntry with is_inherited_instance := true },
      { data := e1007Stream, pos := 112 }) := rfl

/-- C4 witness: the boundary behavior at versions 1006 and 1007.
TrackObjectExportIsInherited is 1006: at exact equality the entry is 108
bytes and the flag is the default false; at 1007 the entry is 112 bytes
and the flag is read from the stream (true here). -/
theorem C4_witness :
    EUnrealEngineObjectUE5Version.TrackObjectExportIsInherited = 1006 ∧
    zeroEntry.is_inherited_instance = false ∧
    ({ data := e1006Stream, pos := 108 } : ByteStream).pos =
      ({ data := e1006Stream, pos := 0 } : ByteStream).pos + export_entry_size 1006 ∧
    export_entry_size 1006 = 108 ∧
    ({ data := e1007Stream, pos := 112 } : ByteStream).pos =
      ({ data := e1007Stream, pos := 0 } : ByteStream).pos + export_entry_size 1007 ∧
    export_entry_size 1007 = 112 ∧
    ({ zeroEntry with is_inherited_instance := true } : ExportEntry).is_inherited_instance
      = true := by
  refine ⟨rfl, (C4_inherited_strict e1006_run).1 (by decide), (C4_inherited_strict e1006_run).2,
    by decide, (C4_inherited_strict e1007_run).2, by decide, rfl⟩

/-! Claim C5: negative counted-array lengths; the thumbnail reader. -/

/-- UassetSummary::default(): every numeric field 0, strings empty, lists
empty, optional fields absent. -/
def defaultSummary : UassetSummary where
  tag := 0
  legacy_file_version := 0
  legacy_ue3_version := 0
  file_version_ue4 := 0
  file_version_ue5 := 0
  file_version_licensee_ue4 := 0
  saved_hash := none
  total_header_size := 0
  custom_versions := []
  package_name := []
  package_flags := 0
  name_count := 0
  name_offset := 0
  soft_object_paths_count := none
  soft_object_paths_offset := none
  localization_id := []
  gatherable_text_data_count := 0
  gatherable_text_data_offset := 0
  export_count := 0
  export_offset := 0
  import_count := 0
  import_offset := 0
  cell_export_count := none
  cell_export_offset := none
  cell_import_count := none
  cell_import_offset := none
  metadata_offset := none
  depends_offset := 0
  soft_package_references_count := 0
  soft_package_references_offset := 0
  searchable_names_offset := 0
  thumbnail_table_offset := 0
  guid := none
  persistent_guid := []
  generations := []
  saved_by_engine_version_major := 0
  saved_by_engine_version_minor := 0
  saved_by_engine_version_patch := 0
  saved_by_engine_version_changelist := 0
  saved_by_engine_version_name := []
  compatible_engine_version_major := 0
  compatible_engine_version_minor := 0
  compatible_engine_version_patch := 0
  compatible_engine_version_changelist := 0
  compatible_engine_version_name := []
  compression_flags := 0
  compressed_chunks := []
  package_source := 0
  additional_packages_to_cook := []
  asset_registry_data_offset := 0
  bulk_data_start_offset := 0

/-- C5: a thumbnail-cache section declaring object count -1 (bytes
FF FF FF FF at the table offset) does not produce InvalidArraySize: the
count is used unvalidated, Vec::with_capacity((-1 as usize)) overflows the
capacity bound and the reader panics instead of returning a result. The
general read_tarray path, by contrast, does reject a negative count. -/
theorem C5_thumbnail_negative_count :
    toSigned 32 (leVal [0xFF, 0xFF, 0xFF, 0xFF]) = -1 ∧
    read_asset_data_from_thumbnail_cache
      { defaultSummary with thumbnail_table_offset := 16 } 20
      { data := List.replicate 16 0 ++ [0xFF, 0xFF, 0xFF, 0xFF], pos := 0 } = none ∧
    read_tarray (readBytes 8) 1000 { data := [0xFF, 0xFF, 0xFF, 0xFF], pos := 0 } =
      some (Except.error (ParseError.InvalidArraySize (-1)),
        { data := [0xFF, 0xFF, 0xFF, 0xFF], pos := 4 }) :=
  ⟨by decide, rfl, rfl⟩

/-! Claim C6: asset-registry mid-stream recovery. -/

/-- An asset-registry section at offset 16 declaring 5 assets: assets 1 and
2 complete ("A"/"B" with one tag K→V, then "C"/"D" with no tags), asset 3
("E"/"F") declares 3 tag pairs but the stream ends inside its 2nd pair,
right after the key "I". -/
def regStream : List Nat :=
  List.replicate 16 0 ++ [0, 0, 0, 0, 0, 0, 0, 0] ++ [5, 0, 0, 0] ++
  [2, 0, 0, 0, 65, 0] ++ [2, 0, 0, 0, 66, 0] ++ [1, 0, 0, 0] ++
  [2, 0, 0, 0, 75, 0] ++ [2, 0, 0, 0, 86, 0] ++
  [2, 0, 0, 0, 67, 0] ++ [2, 0, 0, 0, 68, 0] ++ [0, 0, 0, 0] ++
  [2, 0, 0, 0, 69, 0] ++ [2, 0, 0, 0, 70, 0] ++ [3, 0, 0, 0] ++
  [2, 0, 0, 0, 71, 0] ++ [2, 0, 0, 0, 72, 0] ++ [2, 0, 0, 0, 73, 0]

/-- Asset 1 of regStream, fully decoded. -/
def regAsset1 : AssetRegistryData where
  object_path := [65]
  object_class_name := [66]
  tags := [([75], [86])]

/-- Asset 2 of regStream, fully decoded. -/
def regAsset2 : AssetRegistryData where
  object_path := [67]
  object_class_name := [68]
  tags := []

/-- Asset 3 of regStream: object path, class name and the single tag pair
read before the truncation. -/
def regAsset3 : AssetRegistryData where
  object_path := [69]
  object_class_name := [70]
  tags := [([71], [72])]

/-- The third (truncated) asset's loop iteration: returns the partial asset
and stops. -/
theorem regStream_loop3 : readAssetsLoop 3 { data := regStream, pos := 72 } =
    some (Except.ok [regAsset3], { data := regStream, pos := 106 }) := by
  refine (step _ [69] { data := regStream, pos := 78 } rfl).trans ?_
  refine (step _ [70] { data := regStream, pos := 84 } rfl).trans ?_
  refine (step _ (3 : Int) { data := regStream, pos := 88 } rfl).trans ?_
  refine (step _ (regAsset3, false) { data := regStream, pos := 106 } rfl).trans ?_
  rfl

/-- The second asset's loop iteration. -/
theorem regStream_loop4 : readAssetsLoop 4 { data := regStream, pos := 56 } =
    some (Except.ok [regAsset2, regAsset3], { data := regStream, pos := 106 }) := by
  refine (step _ [67] { data := regStream, pos := 62 } rfl).trans ?_
  refine (step _ [68] { data := regStream, pos := 68 } rfl).trans ?_
  refine (step _ (0 : Int) { data := regStream, pos := 72 } rfl).trans ?_
  refine (step _ (regAsset2, true) { data := regStream, pos := 72 } rfl).trans ?_
  refine (step _ [regAsset3] { data := regStream, pos := 106 } regStream_loop3).trans ?_
  rfl

/-- The first asset's loop iteration. -/
theorem regStream_loop5 : readAssetsLoop 5 { data := regStream, pos := 28 } =
    some (Except.ok [regAsset1, regAsset2, regAsset3], { data := regStream, pos := 106 }) := by
  refine (step _ [65] { data := regStream, pos := 34 } rfl).trans ?_
  refine (step _ [66] { data := regStream, pos := 40 } rfl).trans ?_
  refine (step _ (1 : Int) { data := regStream, pos := 44 } rfl).trans ?_
  refine (step _ (regAsset1, true) { data := regStream, pos := 56 } rfl).trans ?_
  refine (step _ [regAsset2, regAsset3] { data := regStream, pos := 106 }
    regStream_loop4).trans ?_
  rfl

/-- C6: a failed tag pair ends the registry read successfully with the
current partial asset: whether the key read succeeds and the value read
fails, or the key read itself fails (the second fstring of the Rust tuple
still runs), readTagsLoop returns (asset, stop) as an Ok result; the outer
asset loop then ends with that partial asset as the last entry, reading no
further assets; and on the
concrete 5-asset stream truncated in the 2nd tag pair of the 3rd asset, the
reader returns Ok with exactly assets 1 and 2 fully decoded plus the
partial asset 3 carrying its path, class name and first tag pair. -/
theorem C6_registry_recovery :
    (∀ (j : Nat) (asset : AssetRegistryData) (s : ByteStream) (key : List Nat)
      (s1 : ByteStream) (e : ParseError) (s2 : ByteStream),
      read_fstring s = some (Except.ok key, s1) →
      read_fstring s1 = some (Except.error e, s2) →
      readTagsLoop (j + 1) asset s = some (Except.ok (asset, false), s2)) ∧
    (∀ (j : Nat) (asset : AssetRegistryData) (s : ByteStream) (e : ParseError)
      (s1 : ByteStream) (r : Except ParseError (List Nat)) (s2 : ByteStream),
      read_fstring s = some (Except.error e, s1) →
      read_fstring s1 = some (r, s2) →
      readTagsLoop (j + 1) asset s = some (Except.ok (asset, false), s2)) ∧
    (∀ (k : Nat) (s s1 s2 s3 s4 : ByteStream) (path cls : List Nat) (n : Int)
      (asset : AssetRegistryData),
      read_fstring s = some (Except.ok path, s1) →
      read_fstring s1 = some (Except.ok cls, s2) →
      readI32 s2 = some (Except.ok n, s3) →
      readTagsLoop n.toNat
        { object_path := path, object_class_name := cls, tags := [] } s3 =
        some (Except.ok (asset, false), s4) →
      readAssetsLoop (k + 1) s = some (Except.ok [asset], s4)) ∧
    read_asset_registry_data { defaultSummary with asset_registry_data_offset := 16 } 106
      { data := regStream, pos := 0 } =
    some (Except.ok [regAsset1, regAsset2, regAsset3], { data := regStream, pos := 106 }) := by
  refine ⟨?_, ?_, ?_, ?_⟩
  · intro j asset s key s1 e s2 h1 h2
    simp only [readTagsLoop, h1, h2]
  · intro j asset s e s1 r s2 h1 h2
    simp only [readTagsLoop, h1, h2]
  · intro k s s1 s2 s3 s4 path cls n asset h1 h2 h3 h4
    refine (step _ path s1 h1).trans ?_
    refine (step _ cls s2 h2).trans ?_
    refine (step _ n s3 h3).trans ?_
    refine (step _ (asset, false) s4 h4).trans ?_
    rfl
  · unfold read_asset_registry_data
    refine (step _ () { data := regStream, pos := 16 } rfl).trans ?_
    refine (step _ (0 : Int) { data := regStream, pos := 24 } rfl).trans ?_
    refine (step _ () { data := regStream, pos := 24 } rfl).trans ?_
    refine (step _ (5 : Int) { data := regStream, pos := 28 } rfl).trans ?_
    refine (step _ () { data := regStream, pos := 28 } rfl).trans ?_
    exact regStream_loop5

/-- C6 witness: the tag-pair recovery applied at the concrete truncation
point of regStream — the key "I" at position 100 reads fine, the value
read hits the end of the stream. -/
theorem C6_witness :
    readTagsLoop 1 regAsset3 { data := regStream, pos := 100 } =
      some (Except.ok (regAsset3, false), { data := regStream, pos := 106 }) :=
  C6_registry_recovery.1 0 regAsset3 { data := regStream, pos := 100 } [73]
    { data := regStream, pos := 106 } ParseError.IoError
    { data := regStream, pos := 106 } rfl rfl

/-! Claim C8: memoizing section accessors. -/

/-- C8: for each of the three cached accessors — names, asset-registry
data, thumbnail cache — a loaded cache is returned as is without touching
the reader; a first successful decode is stored in the cache field; and a
failed decode propagates the error while leaving the cache field unloaded,
so the next call runs the decoder again. -/
theorem C8_section_caching :
    ((∀ (p : UassetParser) (v : List (List Nat)), p.names = some v →
      get_names p = some (Except.ok v, p)) ∧
     (∀ (p : UassetParser) (v : List (List Nat)) (s' : ByteStream), p.names = none →
      read_names p.summary p.package_file_size p.reader = some (Except.ok v, s') →
      get_names p = some (Except.ok v, { p with reader := s', names := some v })) ∧
     (∀ (p : UassetParser) (e : ParseError) (s' : ByteStream), p.names = none →
      read_names p.summary p.package_file_size p.reader = some (Except.error e, s') →
      get_names p = some (Except.error e, { p with reader := s' }) ∧
        ({ p with reader := s' } : UassetParser).names = none)) ∧
    ((∀ (p : UassetParser) (v : List AssetRegistryData), p.asset_registry_data = some v →
      get_asset_registry_data p = some (Except.ok v, p)) ∧
     (∀ (p : UassetParser) (v : List AssetRegistryData) (s' : ByteStream),
      p.asset_registry_data = none →
      read_asset_registry_data p.summary p.package_file_size p.reader =
        some (Except.ok v, s') →
      get_asset_registry_data p =
        some (Except.ok v, { p with reader := s', asset_registry_data := some v })) ∧
     (∀ (p : UassetParser) (e : ParseError) (s' : ByteStream), p.asset_registry_data = none →
      read_asset_registry_data p.summary p.package_file_size p.reader =
        some (Except.error e, s') →
      get_asset_registry_data p = some (Except.error e, { p with reader := s' }) ∧
        ({ p with reader := s' } : UassetParser).asset_registry_data = none)) ∧
    ((∀ (p : UassetParser) (v : List AssetData), p.thumbnail_cache = some v →
      get_thumbnail_cache p = some (Except.ok v, p)) ∧
     (∀ (p : UassetParser) (v : List AssetData) (s' : ByteStream), p.thumbnail_cache = none →
      read_asset_data_from_thumbnail_cache p.summary p.package_file_size p.reader =
        some (Except.ok v, s') →
      get_thumbnail_cache p =
        some (Except.ok v, { p with reader := s', thumbnail_cache := some v })) ∧
     (∀ (p : UassetParser) (e : ParseError) (s' : ByteStream), p.thumbnail_cache = none →
      read_asset_data_from_thumbnail_cache p.summary p.package_file_size p.reader =
        some (Except.error e, s') →
      get_thumbnail_cache p = some (Except.error e, { p with reader := s' }) ∧
        ({ p with reader := s' } : UassetParser).thumbnail_cache = none)) := by
  refine ⟨⟨?_, ?_, ?_⟩, ⟨?_, ?_, ?_⟩, ⟨?_, ?_, ?_⟩⟩
  · intro p v h
    unfold get_names
    rw [h]
  · intro p v s' h hr
    unfold get_names
    rw [h, hr]
  · intro p e s' h hr
    constructor
    · unfold get_names
      rw [h, hr]
    · exact h
  · intro p v h
    unfold get_asset_registry_data
    rw [h]
  · intro p v s' h hr
    unfold get_asset_registry_data
    rw [h, hr]
  · intro p e s' h hr
    constructor
    · unfold get_asset_registry_data
      rw [h, hr]
    · exact h
  · intro p v h
    unfold get_thumbnail_cache
    rw [h]
  · intro p v s' h hr
    unfold get_thumbnail_cache
    rw [h, hr]
  · intro p e s' h hr
    constructor
    · unfold get_thumbnail_cache
      rw [h, hr]
    · exact h

/-- A 14-byte file with a one-entry name table at offset 4: the string "A"
followed by 4 discarded hash bytes. -/
def namesStreamW : List Nat := [0, 0, 0, 0, 2, 0, 0, 0, 65, 0, 0, 0, 0, 0]

/-- A parser over namesStreamW with an unloaded names cache. -/
def pW : UassetParser where
  reader := { data := namesStreamW, pos := 0 }
  package_file_size := 14
  allow_unversioned := true
  summary := { defaultSummary with name_count := 1, name_offset := 4 }
  names := none
  asset_registry_data := none
  thumbnail_cache := none

/-- pW after a first successful get_names call. -/
def pWloaded : UassetParser :=
  { pW with reader := { data := namesStreamW, pos := 14 }, names := some [[65]] }

/-- An 8-byte file whose name table at offset 4 declares a string longer
than the file, so read_names fails with an I/O error. -/
def pWbad : UassetParser where
  reader := { data := [0, 0, 0, 0, 9, 9, 9, 9], pos := 0 }
  package_file_size := 8
  allow_unversioned := true
  summary := { defaultSummary with name_count := 1, name_offset := 4 }
  names := none
  asset_registry_data := none
  thumbnail_cache := none

/-- C8 witness: a first get_names call on pW decodes ["A"] and caches it; a
second call returns the cache unchanged; on pWbad the error propagates and
the cache field stays unloaded. -/
theorem C8_witness :
    get_names pW = some (Except.ok [[65]], pWloaded) ∧
    get_names pWloaded = some (Except.ok [[65]], pWloaded) ∧
    (get_names pWbad = some (Except.error ParseError.IoError,
      { pWbad with reader := { data := [0, 0, 0, 0, 9, 9, 9, 9], pos := 8 } }) ∧
      ({ pWbad with reader := { data := [0, 0, 0, 0, 9, 9, 9, 9], pos := 8 } } :
        UassetParser).names = none) :=
  ⟨C8_section_caching.1.2.1 pW [[65]] { data := namesStreamW, pos := 14 } rfl rfl,
   C8_section_caching.1.1 pWloaded [[65]] rfl,
   C8_section_caching.1.2.2 pWbad ParseError.IoError
     { data := [0, 0, 0, 0, 9, 9, 9, 9], pos := 8 } rfl rfl⟩

/-! Claim C10: the summary decode is independent of the prior cursor. -/

/-- C10: read_uasset_summary first seeks to absolute position 0, so over
the same bytes two runs started from different prior cursor positions
return identical results (the same summary or the same error, and the same
final stream). -/
theorem C10_summary_position_independent (fs : Nat) (allow : Bool) (d : List Nat)
    (p q : Nat) :
    read_uasset_summary fs allow { data := d, pos := p } =
    read_uasset_summary fs allow { data := d, pos := q } := by
  have seek0 : ∀ {β : Type} (f : Unit → M β) (s : ByteStream),
      (seekStart 0 >>= f) s = f () { data := s.data, pos := 0 } :=
    fun f s => step _ () { data := s.data, pos := 0 } rfl
  unfold read_uasset_summary
  rw [seek0, seek0]

end Uasset
